import Mathlib

/- Verification development for the SNS publish/subscribe core
   (moto/sns/models.py): the filter-expression matcher, the filter-policy
   validator, the topic/subscription registry and the publish pipeline.

   Modelling conventions:
   * Python/JSON values are modelled by `PyVal`; Python numbers (int and
     float) are modelled as exact rationals. Message-attribute values are
     the strings produced by the API layer.
   * Python exceptions are modelled by an explicit error type `Err`
     threaded through `Except`; a raised exception leaves previously
     performed mutations in place, so stateful operations return the
     post-state together with the `Except` result.
   * External collaborators (queue backend, HTTP transport, function
     invocation) are passed in as an adapter oracle. -/

namespace SnsModel

/-- Python/JSON value, as produced by `json.loads` and carried in filter
policies. Python ints and floats are collapsed into exact rationals;
`bool` is a separate constructor, but the model mirrors the places where
the source relies on `isinstance(b, int)` being true for booleans. -/
inductive PyVal where
  | str (s : String)
  | num (q : ℚ)
  | bool (b : Bool)
  | null
  | list (l : List PyVal)
  | dict (l : List (String × PyVal))

/-- First value stored under key `k` in an association list (Python dict
lookup; dicts have unique keys, the model reads the first occurrence). -/
def assocFind (k : String) (l : List (String × PyVal)) : Option PyVal :=
  (l.find? (fun kv => kv.1 == k)).map (fun kv => kv.2)

mutual

/-- Python `==` on values: numbers compare by value (`True == 1` holds,
since bool is an int subclass), strings, `None`, lists and dicts compare
structurally, and values of unrelated types are unequal. -/
def pyEq : PyVal → PyVal → Bool
  | .str a, .str b => a == b
  | .num a, .num b => a == b
  | .num a, .bool b => a == (if b then 1 else 0)
  | .bool a, .num b => (if a then (1 : ℚ) else 0) == b
  | .bool a, .bool b => a == b
  | .null, .null => true
  | .list a, .list b => pyEqList a b
  | .dict a, .dict b => a.length == b.length && pyEqDict a b
  | _, _ => false

/-- Elementwise Python `==` on lists. -/
def pyEqList : List PyVal → List PyVal → Bool
  | [], [] => true
  | a :: as, b :: bs => pyEq a b && pyEqList as bs
  | _, _ => false

/-- Python dict `==`: every key of the first dict is present in the second
with an equal value (combined with the length check above). -/
def pyEqDict : List (String × PyVal) → List (String × PyVal) → Bool
  | [], _ => true
  | (k, v) :: rest, b =>
      (match assocFind k b with
       | some v' => pyEq v v'
       | none => false) && pyEqDict rest b

end

/-- Python membership `x in l` for a list `l` (element equality). -/
def pyInList (x : PyVal) (l : List PyVal) : Bool :=
  l.any (fun e => pyEq x e)

/-- Python truthiness of a value. -/
def pyTruthy : PyVal → Bool
  | .str s => !s.data.isEmpty
  | .num q => !(q == 0)
  | .bool b => b
  | .null => false
  | .list l => !l.isEmpty
  | .dict l => !l.isEmpty

/-- Python truthiness of an optional string (`None` and `""` are falsy). -/
def strOptTruthy : Option String → Bool
  | none => false
  | some s => !s.data.isEmpty

/-- Python `len` of a string (code points). -/
def strLen (s : String) : Nat := s.data.length

/-- Digit characters accumulated into a natural number. -/
def digitsToNat (cs : List Char) : Nat :=
  cs.foldl (fun n c => n * 10 + (c.toNat - 48)) 0

/-- Value of a decimal literal: mantissa digits `ip ++ fp`, fractional
length `|fp|`, explicit exponent `e`, sign `sgn`. -/
def decimalValue (sgn : Int) (ip fp : List Char) (e : Int) : ℚ :=
  let m : Int := Int.ofNat (digitsToNat (ip ++ fp))
  let e10 : Int := e - Int.ofNat fp.length
  if 0 ≤ e10 then mkRat (sgn * m * Int.ofNat (10 ^ e10.toNat)) 1
  else mkRat (sgn * m) (10 ^ (-e10).toNat)

/-- Parse the body of a decimal literal (already sign-stripped):
digits, optional fraction, optional exponent; at least one digit must be
present before or after the point. Returns the value and leftover input. -/
def parseDecimalCore (sgn : Int) (cs : List Char) : Option (ℚ × List Char) :=
  let ip := cs.takeWhile Char.isDigit
  let r1 := cs.dropWhile Char.isDigit
  let (fp, r2) :=
    match r1 with
    | '.' :: t => (t.takeWhile Char.isDigit, t.dropWhile Char.isDigit)
    | _ => ([], r1)
  if ip.isEmpty && fp.isEmpty then none
  else
    match r2 with
    | 'e' :: t | 'E' :: t =>
        let (esgn, t') : Int × List Char :=
          match t with
          | '+' :: u => (1, u)
          | '-' :: u => (-1, u)
          | u => (1, u)
        let ed := t'.takeWhile Char.isDigit
        let r3 := t'.dropWhile Char.isDigit
        if ed.isEmpty then none
        else some (decimalValue sgn ip fp (esgn * Int.ofNat (digitsToNat ed)), r3)
    | _ => some (decimalValue sgn ip fp 0, r2)

/-- Model of Python `float(s)` on a string: finite decimal literals with
optional sign, fraction and exponent. (The model does not accept the
`inf`/`nan`/hex/underscore forms; on those it returns `none`, i.e. the
`ValueError` path.) -/
def parseDecimal (s : String) : Option ℚ :=
  let cs := s.data
  let (sgn, cs') : Int × List Char :=
    match cs with
    | '+' :: r => (1, r)
    | '-' :: r => (-1, r)
    | r => (1, r)
  match parseDecimalCore sgn cs' with
  | some (q, []) => some q
  | _ => none

/-- Model of Python `float(x)` on a decoded JSON value: numbers and bools
convert directly, strings are parsed, everything else is a `TypeError`
(returned as `none`). -/
def pyFloat : PyVal → Option ℚ
  | .str s => parseDecimal s
  | .num q => some q
  | .bool b => some (if b then 1 else 0)
  | _ => none

/-- Model of Python `int(q * 1000000)` for a rational `q`: truncation
toward zero of `q * 1000000`, computed on the exact fraction. -/
def intTimesMillion (q : ℚ) : ℤ :=
  Int.tdiv (q.num * 1000000) q.den

/-- Leading JSON whitespace removed. -/
def skipWs : List Char → List Char
  | c :: r => if c == ' ' || c == '\t' || c == '\n' || c == '\r' then skipWs r else c :: r
  | [] => []

/-- Decoded character of a JSON simple escape sequence. -/
def escChar (c : Char) : Option Char :=
  if c == 'n' then some '\n'
  else if c == 't' then some '\t'
  else if c == 'r' then some '\r'
  else if c == 'b' then some (Char.ofNat 8)
  else if c == 'f' then some (Char.ofNat 12)
  else if c == '"' || c == '\\' || c == '/' then some c
  else none

/-- Body of a JSON string after the opening quote: returns the decoded
characters and the input following the closing quote. Simple escapes are
decoded; `\uXXXX` escapes are outside the modelled subset. -/
def parseJStringBody : List Char → Option (List Char × List Char)
  | [] => none
  | '"' :: r => some ([], r)
  | '\\' :: e :: r =>
      match escChar e, parseJStringBody r with
      | some c, some p => some (c :: p.1, p.2)
      | _, _ => none
  | c :: r =>
      match parseJStringBody r with
      | some p => some (c :: p.1, p.2)
      | none => none

mutual

/-- Recursive-descent JSON value parser (fuel-indexed; the fuel bounds the
recursion depth and is instantiated with the input length plus two). -/
def jsonParseVal : Nat → List Char → Option (PyVal × List Char)
  | 0, _ => none
  | fuel + 1, cs =>
      match skipWs cs with
      | '"' :: r => (parseJStringBody r).map (fun p => (.str ⟨p.1⟩, p.2))
      | 't' :: 'r' :: 'u' :: 'e' :: r => some (.bool true, r)
      | 'f' :: 'a' :: 'l' :: 's' :: 'e' :: r => some (.bool false, r)
      | 'n' :: 'u' :: 'l' :: 'l' :: r => some (.null, r)
      | '\x5b' :: r =>
          (match skipWs r with
           | '\x5d' :: r' => some (.list [], r')
           | r' => jsonParseArr fuel r' [])
      | '\x7b' :: r =>
          (match skipWs r with
           | '\x7d' :: r' => some (.dict [], r')
           | r' => jsonParseObj fuel r' [])
      | cs' =>
          let (sgn, cs'') : Int × List Char :=
            match cs' with
            | '-' :: u => (-1, u)
            | u => (1, u)
          (parseDecimalCore sgn cs'').map (fun p => (.num p.1, p.2))

/-- Comma-separated JSON array elements up to the closing bracket. -/
def jsonParseArr : Nat → List Char → List PyVal → Option (PyVal × List Char)
  | 0, _, _ => none
  | fuel + 1, cs, acc =>
      match jsonParseVal fuel cs with
      | none => none
      | some (v, r1) =>
          match skipWs r1 with
          | ',' :: r2 => jsonParseArr fuel (skipWs r2) (v :: acc)
          | '\x5d' :: r2 => some (.list (v :: acc).reverse, r2)
          | _ => none

/-- Comma-separated JSON object members up to the closing brace. -/
def jsonParseObj : Nat → List Char → List (String × PyVal) →
    Option (PyVal × List Char)
  | 0, _, _ => none
  | fuel + 1, cs, acc =>
      match skipWs cs with
      | '"' :: r =>
          match parseJStringBody r with
          | none => none
          | some (k, r1) =>
              match skipWs r1 with
              | ':' :: r2 =>
                  match jsonParseVal fuel (skipWs r2) with
                  | none => none
                  | some (v, r3) =>
                      match skipWs r3 with
                      | ',' :: r4 => jsonParseObj fuel (skipWs r4) ((⟨k⟩, v) :: acc)
                      | '\x7d' :: r4 => some (.dict ((⟨k⟩, v) :: acc).reverse, r4)
                      | _ => none
              | _ => none
      | _ => none

end

/-- Model of Python `json.loads` on a string: `none` is the
`JSONDecodeError` / `ValueError` path. -/
def jsonLoads (s : String) : Option PyVal :=
  match jsonParseVal (s.data.length + 2) s.data with
  | some (v, rest) => if (skipWs rest).isEmpty then some v else none
  | none => none

/-- Sublist (substring) test used for Python `in` on strings. -/
def isSubList (needle : List Char) : List Char → Bool
  | [] => needle.isEmpty
  | c :: t => needle.isPrefixOf (c :: t) || isSubList needle t

/-- Python `rule in json_data` for a string `rule`: list membership, dict
key membership, substring on strings; `none` is the `TypeError` path for
the remaining types. -/
def strInPy (rule : String) : PyVal → Option Bool
  | .list l => some (pyInList (.str rule) l)
  | .dict d => some (d.any (fun kv => kv.1 == rule))
  | .str s => some (isSubList rule.data s.data)
  | _ => none

/-- Exceptions that the modelled operations can raise. Python exception
classes are represented one constructor per class (plus payload); the
classes themselves live in `moto.sns.exceptions` / `moto.sqs.exceptions`
(outside the provided sources) and are modelled from the spec's error
taxonomy (§7) as unrelated classes. Validation errors of the filter
policy get one constructor per raise site so that their identity does not
depend on interpolated message text. -/
inductive Err where
  | valueError (msg : String)
  | typeError
  | indexError
  | attributeError
  | assertionError
  | jsonDecodeError
  | invalidParameterValue (msg : String)
  | snsInvalidParameter (msg : String)
  | missingParameter (param : String)
  | snsNotFound (msg : String)
  | endpointDisabled (msg : String)
  | topicNotFoundErr
  | tooManyEntriesInBatch
  | batchEntryIdsNotDistinct
  | deliveryError
  | filterTooComplex
  | filterExistsNotBool
  | filterRuleNumberOutOfRange
  | filterNumericEmptyList
  | filterNumericMemberNotOp (op : PyVal)
  | filterNumericUnrecognizedOp (op : PyVal)
  | filterNumericValueNotNumeric (op : PyVal)
  | filterNumericTooManyElements
  | filterNumericBadRangeOp (op : PyVal)
  | filterNumericSecondValueNotNumeric (op : PyVal)
  | filterNumericBottomGreater
  | filterUnrecognizedMatchType (kw : String)
  | filterBadMatchValue

/-- Python class test `isinstance(e, InvalidParameterValue)`: only the
constructor standing for `moto.sns.exceptions.InvalidParameterValue`
satisfies it; the other exception classes are unrelated. -/
def Err.isInvalidParameterValue : Err → Bool
  | .invalidParameterValue _ => true
  | _ => false

/-- Model of Python `float(x)` with exceptions: `ValueError` on an
unparsable string, `TypeError` on `None`/lists/dicts. -/
def pyFloatE : PyVal → Except Err ℚ
  | .str s =>
      match parseDecimal s with
      | some q => .ok q
      | none => .error (.valueError "could not convert string to float")
  | .num q => .ok q
  | .bool b => .ok (if b then 1 else 0)
  | _ => .error .typeError

/-- Message attribute as carried on a published message: the
`Type`/`Value` pair produced by the API layer (values are strings). -/
structure MsgAttr where
  type : String
  value : String

/-- Message attribute set (`message_attributes` dict). -/
abbrev MsgAttrs := List (String × MsgAttr)

/-- Dict lookup on a message attribute set. -/
def attrFind (field : String) (m : MsgAttrs) : Option MsgAttr :=
  (m.find? (fun kv => kv.1 == field)).map (fun kv => kv.2)

/-- Outcome of evaluating one rule inside the `for rule in rules` loop of
`_field_match`: `return True`, fall through to the next rule,
`return False` for the whole field, or a propagating Python exception. -/
inductive StepRes where
  | matched
  | cont
  | failField
  | raised (e : Err)

/-- Inner loop of the literal-number branch of `_field_match`: each
attribute value is coerced by `float` (which can raise) and compared to
the rule at six-decimal-digit precision by `int(x * 1000000)`. -/
def numericLiteralLoop (r : ℚ) : List PyVal → StepRes
  | [] => .cont
  | v :: rest =>
      match pyFloatE v with
      | .error e => .raised e
      | .ok fv =>
          if intTimesMillion fv == intTimesMillion r then .matched
          else numericLiteralLoop r rest

/-- Literal-number branch of `_field_match` (`isinstance(rule, (int,
float))`, which booleans also enter): an absent field and an attribute
typed neither `Number` nor `String.Array` both `return False`; otherwise
the attribute values are compared at six-decimal precision. -/
def numericLiteralStep (field : String) (m : MsgAttrs) (r : ℚ) : StepRes :=
  match attrFind field m with
  | none => .failField
  | some attr =>
      if attr.type == "Number" then numericLiteralLoop r [.str attr.value]
      else if attr.type == "String.Array" then
        match jsonLoads attr.value with
        | none => .failField
        | some (.list l) => numericLiteralLoop r l
        | some v => numericLiteralLoop r [v]
      else .failField

/-- Numeric bound of a comparison operand in the numeric-range branch:
Python comparison of a float with a non-number raises `TypeError`. -/
def pyCmpNum : PyVal → Except Err ℚ
  | .num q => .ok q
  | .bool b => .ok (if b then 1 else 0)
  | _ => .error .typeError

/-- Consecutive (operator, bound) pairs of a numeric-range rule value
(`zip(value[0::2], value[1::2])`; an odd trailing token is dropped). -/
def pairUp : List PyVal → List (PyVal × PyVal)
  | a :: b :: rest => (a, b) :: pairUp rest
  | _ => []

/-- Comparison results collected by the numeric-range branch: operators
other than the five recognized strings contribute nothing; a recognized
operator compares the message value with the bound (possibly raising). -/
def numericRangeResults (mv : ℚ) : List (PyVal × PyVal) → Except Err (List Bool)
  | [] => .ok []
  | (op, tv) :: rest =>
      let step : Except Err (Option Bool) :=
        match op with
        | .str o =>
            if o == ">" then (pyCmpNum tv).map (fun q => some (decide (q < mv)))
            else if o == ">=" then (pyCmpNum tv).map (fun q => some (decide (q ≤ mv)))
            else if o == "=" then (pyCmpNum tv).map (fun q => some (mv == q))
            else if o == "<" then (pyCmpNum tv).map (fun q => some (decide (mv < q)))
            else if o == "<=" then (pyCmpNum tv).map (fun q => some (decide (mv ≤ q)))
            else .ok none
        | _ => .ok none
      match step with
      | .error e => .error e
      | .ok ob =>
          match numericRangeResults mv rest with
          | .error e => .error e
          | .ok l =>
              .ok (match ob with
                   | some b => b :: l
                   | none => l)

/-- One iteration of the `for rule in rules` loop of `_field_match`,
transcribed branch by branch (string rule, literal-number rule, operator
object with `exists` / `prefix` / `anything-but` / `numeric`); any other
rule shape falls through to the next rule. -/
def ruleStep (field : String) (m : MsgAttrs) : PyVal → StepRes
  | .str s =>
      (match attrFind field m with
       | none => .failField
       | some attr =>
           if attr.value == s then .matched
           else
             match jsonLoads attr.value with
             | none => .cont
             | some jd =>
                 match strInPy s jd with
                 | some true => .matched
                 | _ => .cont)
  | .num q => numericLiteralStep field m q
  | .bool b => numericLiteralStep field m (if b then 1 else 0)
  | .dict [] => .raised .indexError
  | .dict ((kw, value) :: _) =>
      if kw == "exists" then
        (if pyTruthy value && (attrFind field m).isSome then .matched
         else if !pyTruthy value && (attrFind field m).isNone then .matched
         else .cont)
      else if kw == "prefix" then
        (match value with
         | .str p =>
             (match attrFind field m with
              | some attr =>
                  if attr.type == "String" && p.data.isPrefixOf attr.value.data then
                    .matched
                  else .cont
              | none => .cont)
         | _ => .cont)
      else if kw == "anything-but" then
        (match attrFind field m with
         | none => .cont
         | some attr =>
             match value with
             | .dict [] => .raised .indexError
             | .dict ((abk, abv) :: _) =>
                 if abk != "prefix" then .failField
                 else
                   let actuals : List String :=
                     if attr.type == "String" then [attr.value]
                     else attr.value.data.map (fun c => String.mk [c])
                   (match abv with
                    | .str ap =>
                        if actuals.all (fun v => !(ap.data.isPrefixOf v.data)) then
                          .matched
                        else .cont
                    | _ => .raised .typeError)
             | _ =>
                 let actualsE : Except Err (List PyVal) :=
                   if attr.type == "Number" then
                     (pyFloatE (.str attr.value)).map (fun q => [PyVal.num q])
                   else if attr.type == "String" then .ok [.str attr.value]
                   else .ok (attr.value.data.map (fun c => PyVal.str (String.mk [c])))
                 match actualsE with
                 | .error e => .raised e
                 | .ok actuals =>
                     if actuals.isEmpty then .matched
                     else
                       match value with
                       | .str s =>
                           if actuals.all (fun v => !(pyInList v [.str s])) then
                             .matched
                           else .cont
                       | .list l =>
                           if actuals.all (fun v => !(pyInList v l)) then .matched
                           else .cont
                       | _ => .raised .typeError)
      else if kw == "numeric" then
        (match value with
         | .list toks =>
             (match attrFind field m with
              | some attr =>
                  if attr.type == "Number" then
                    match pyFloatE (.str attr.value) with
                    | .error e => .raised e
                    | .ok mv =>
                        match numericRangeResults mv (pairUp toks) with
                        | .error e => .raised e
                        | .ok results =>
                            if results.all (fun b => b) then .matched else .failField
                  else .cont
              | none => .cont)
         | _ => .cont)
      else .cont
  | _ => .cont

/-- Body of `_field_match`: the rules of one field are tried in order;
the first `return True` / `return False` / exception wins, and a fully
traversed list `return False`s. -/
def fieldMatch (field : String) (m : MsgAttrs) : List PyVal → Except Err Bool
  | [] => .ok false
  | r :: rest =>
      match ruleStep field m r with
      | .matched => .ok true
      | .failField => .ok false
      | .raised e => .error e
      | .cont => fieldMatch field m rest

/-- Python iteration over a filter-policy field value (`for rule in
rules`): lists yield elements, strings yield one-character strings, dicts
yield keys; numbers, booleans and `None` raise `TypeError`. -/
def pyIterRules : PyVal → Except Err (List PyVal)
  | .list l => .ok l
  | .str s => .ok (s.data.map (fun c => .str (String.mk [c])))
  | .dict d => .ok (d.map (fun kv => PyVal.str kv.1))
  | _ => .error .typeError

/-- Conjunction over the policy's fields, in dict order, with the
short-circuiting of Python `all` over a generator: a `False` field stops
the iteration, so an exception in a later field is not reached. -/
def matchAllFields (m : MsgAttrs) : List (String × PyVal) → Except Err Bool
  | [] => .ok true
  | (f, rv) :: rest =>
      match pyIterRules rv with
      | .error e => .error e
      | .ok rules =>
          match fieldMatch f m rules with
          | .error e => .error e
          | .ok true => matchAllFields m rest
          | .ok false => .ok false

/-- Transcription of `Subscription._matches_filter_policy`: a falsy
stored policy (`None` or the empty dict) matches everything; a `None`
attribute set is replaced by the empty dict; otherwise every field must
have a matching rule under the sequential `_field_match` semantics. -/
def matchesFilterPolicy (fp : Option (List (String × PyVal)))
    (m : Option MsgAttrs) : Except Err Bool :=
  match fp with
  | none => .ok true
  | some p => if p.isEmpty then .ok true else matchAllFields (m.getD []) p

/-- Python `len(rules)` for a filter-policy field value: lists, strings
and dicts have a length; numbers, booleans and `None` raise `TypeError`. -/
def pyLenRules : PyVal → Except Err Nat
  | .list l => .ok l.length
  | .str s => .ok s.data.length
  | .dict d => .ok d.length
  | _ => .error .typeError

/-- First loop of `_validate_filter_policy`: `combinations *= len(rules)`
over the policy's field values. -/
def combinationsLoop : List (String × PyVal) → Except Err Nat
  | [] => .ok 1
  | (_, rv) :: rest =>
      match pyLenRules rv with
      | .error e => .error e
      | .ok n =>
          match combinationsLoop rest with
          | .error e => .error e
          | .ok m => .ok (n * m)

/-- Python `isinstance(x, (int, float))`, which booleans also satisfy. -/
def isNumericPy : PyVal → Bool
  | .num _ => true
  | .bool _ => true
  | _ => false

/-- Numeric value of a Python number or boolean (callers establish
`isNumericPy`; other constructors are unreachable there). -/
def numToRat : PyVal → ℚ
  | .num q => q
  | .bool b => if b then 1 else 0
  | _ => 0

/-- Transcription of the `keyword == "numeric"` arm of
`_validate_filter_policy`: the value list is consumed pairwise as
(operator, bound); after a complete second pair the remaining tokens are
not examined. A non-list value fails on the `attributes[:]` slice /
`pop` calls with a Python-level error. -/
def validateNumericRule : PyVal → Except Err Unit
  | .list attrs =>
      (match attrs with
       | [] => .error .filterNumericEmptyList
       | op :: rest1 =>
           match op with
           | .str o =>
               if !(o == "<" || o == "<=" || o == "=" || o == ">" || o == ">=") then
                 .error (.filterNumericUnrecognizedOp (.str o))
               else
                 match rest1 with
                 | [] => .error (.filterNumericValueNotNumeric (.str o))
                 | v :: rest2 =>
                     if !isNumericPy v then
                       .error (.filterNumericValueNotNumeric (.str o))
                     else
                       match rest2 with
                       | [] => .ok ()
                       | op2 :: rest3 =>
                           if !(o == ">" || o == ">=") then
                             .error .filterNumericTooManyElements
                           else
                             let op2IsUpper :=
                               match op2 with
                               | .str s2 => s2 == "<" || s2 == "<="
                               | _ => false
                             if !op2IsUpper then
                               .error (.filterNumericBadRangeOp op2)
                             else
                               match rest3 with
                               | [] => .error (.filterNumericSecondValueNotNumeric op2)
                               | v2 :: _ =>
                                   if !isNumericPy v2 then
                                     .error (.filterNumericSecondValueNotNumeric op2)
                                   else if numToRat v2 ≤ numToRat v then
                                     .error .filterNumericBottomGreater
                                   else .ok ()
           | _ => .error (.filterNumericMemberNotOp op))
  | .str s => if s.data.isEmpty then .error .filterNumericEmptyList else .error .attributeError
  | _ => .error .typeError

/-- Validation of one rule of a field's rule list, following the
`isinstance` chain of `_validate_filter_policy` (`None`, strings and
booleans pass; numbers must stay inside ±1e9; operator objects are
checked by their first key; any other shape is a bad match value). -/
def validateRule : PyVal → Except Err Unit
  | .null => .ok ()
  | .str _ => .ok ()
  | .bool _ => .ok ()
  | .num q =>
      if q ≤ -1000000000 || 1000000000 ≤ q then .error .filterRuleNumberOutOfRange
      else .ok ()
  | .dict [] => .error .indexError
  | .dict ((kw, attributes) :: _) =>
      if kw == "anything-but" then .ok ()
      else if kw == "exists" then
        (match attributes with
         | .bool _ => .ok ()
         | _ => .error .filterExistsNotBool)
      else if kw == "numeric" then validateNumericRule attributes
      else if kw == "prefix" then .ok ()
      else .error (.filterUnrecognizedMatchType kw)
  | .list _ => .error .filterBadMatchValue

/-- Second loop of `_validate_filter_policy` over one field's rules. -/
def validateRulesList : List PyVal → Except Err Unit
  | [] => .ok ()
  | r :: rest =>
      match validateRule r with
      | .error e => .error e
      | .ok _ => validateRulesList rest

/-- Second loop of `_validate_filter_policy` over all fields. -/
def validateFieldsList : List (String × PyVal) → Except Err Unit
  | [] => .ok ()
  | (_, rv) :: rest =>
      match pyIterRules rv with
      | .error e => .error e
      | .ok rules =>
          match validateRulesList rules with
          | .error e => .error e
          | .ok _ => validateFieldsList rest

/-- Transcription of `SNSBackend._validate_filter_policy` on a decoded
policy dict: the rule-count product is computed first and rejected above
150, then every rule is checked. -/
def validateFilterPolicy (value : List (String × PyVal)) : Except Err Unit :=
  match combinationsLoop value with
  | .error e => .error e
  | .ok combinations =>
      if combinations > 150 then .error .filterTooComplex
      else validateFieldsList value

/-- Entry of a topic's `sent_notifications` log: the
`(message_id, message, subject, message_attributes, group_id)` tuple. -/
structure SentNotification where
  messageId : String
  message : String
  subject : Option String
  messageAttributes : Option MsgAttrs
  groupId : Option String

/-- Topic state. Only the fields consulted by the verified operations are
carried (the CloudFormation glue, tag map, display attributes and access
policy document of the source are not read by publish/subscribe paths
under verification). The FIFO flags are strings, exactly as assigned by
the source. -/
structure Topic where
  name : String
  arn : String
  fifoTopic : String
  contentBasedDeduplication : String
  effectiveDeliveryPolicy : String
  sentNotifications : List SentNotification

/-- Subscription state. The `topic` back-reference of the source is
carried as the referenced topic's arn (`subscription.topic.arn`), which
is what the registry operations compare. `filterPolicy` is the decoded
`_filter_policy` dict (`none` for no policy). -/
structure Subscription where
  arn : String
  topicArn : String
  endpoint : String
  protocol : String
  attributes : List (String × String)
  filterPolicy : Option (List (String × PyVal))

/-- Platform endpoint state (mobile push mock): arn, attribute map and
per-endpoint message log. -/
structure PlatformEndpoint where
  arn : String
  attributes : List (String × String)
  messages : List (String × String)

/-- Backend state: the per-account/region registry maps (ordered dicts)
plus the SMS message log. `uuidCounter` models the `mock_random.uuid4()`
stream deterministically. -/
structure SNSBackend where
  accountId : String
  regionName : String
  topics : List (String × Topic)
  subscriptions : List (String × Subscription)
  platformEndpoints : List (String × PlatformEndpoint)
  smsMessages : List (String × (String × String))
  uuidCounter : Nat

/-- Dict lookup in a string-keyed association list. -/
def alFind {α : Type} (k : String) (l : List (String × α)) : Option α :=
  (l.find? (fun kv => kv.1 == k)).map (fun kv => kv.2)

/-- Dict update: the existing key is overwritten in place, a new key is
appended at the end (ordered-dict insertion semantics). -/
def alSet {α : Type} (k : String) (v : α) : List (String × α) → List (String × α)
  | [] => [(k, v)]
  | (k', v') :: rest =>
      if k' == k then (k, v) :: rest else (k', v') :: alSet k v rest

/-- Values of an ordered dict, in insertion order. -/
def alValues {α : Type} (l : List (String × α)) : List α :=
  l.map (fun kv => kv.2)

/-- Fresh message id from the modelled uuid stream. -/
def freshUuid (st : SNSBackend) : String × SNSBackend :=
  ("msg-" ++ toString st.uuidCounter, { st with uuidCounter := st.uuidCounter + 1 })

/-- Python `str(x)` for the optional arn interpolated into error text. -/
def optStr : Option String → String
  | none => "None"
  | some s => s

/-- Transcription of `SNSBackend.get_topic` (`KeyError` becomes
`SNSNotFoundError`). -/
def getTopic (st : SNSBackend) (arn : Option String) : Except Err Topic :=
  match arn.bind (fun a => alFind a st.topics) with
  | some t => .ok t
  | none => .error (.snsNotFound ("Topic with arn " ++ optStr arn ++ " not found"))

/-- Transcription of `SNSBackend.list_subscriptions(topic_arn)`: the
topic is resolved (raising if absent), its subscriptions are collected in
registry order, and the first page of `DEFAULT_PAGE_SIZE = 100` entries
is returned (`Topic.publish` only consumes this first page). -/
def listSubscriptionsByTopic (st : SNSBackend) (topicArn : String) :
    Except Err (List Subscription) :=
  match alFind topicArn st.topics with
  | none => .error (.snsNotFound ("Topic with arn " ++ topicArn ++ " not found"))
  | some t =>
      .ok (((alValues st.subscriptions).filter (fun s => s.topicArn == t.arn)).take 100)

/-- Transcription of `SNSBackend._find_subscription`: scan of the
subscription registry for an exact topic+endpoint+protocol triple. -/
def findSubscription (st : SNSBackend) (topicArn endpoint protocol : String) :
    Option Subscription :=
  (alValues st.subscriptions).find?
    (fun s => s.topicArn == topicArn && s.endpoint == endpoint && s.protocol == protocol)

/-- Characters removed/checked by the SMS endpoint validation: dot,
slash, hyphen. -/
def isSepChar (c : Char) : Bool := c == '.' || c == '/' || c == '-'

/-- Model of the first SMS `re.search`: two adjacent separator
characters somewhere in the string. -/
def hasDoubleSep : List Char → Bool
  | a :: b :: r => (isSepChar a && isSepChar b) || hasDoubleSep (b :: r)
  | _ => false

/-- Model of the second SMS `re.search`: a separator character at either
end of the string. -/
def hasEdgeSep (cs : List Char) : Bool :=
  match cs with
  | [] => false
  | c :: r =>
      isSepChar c ||
        (match r.getLast? with
         | some d => isSepChar d
         | none => false)

/-- Modelled from the spec: `is_e164` lives in `moto/sns/utils.py`, which
is not among the provided sources; per the spec's "endpoint-format
validation for SMS protocol via phone-number pattern" it is the E.164
pattern — an optional `+`, a leading digit 1–9, and 1 to 14 further
digits. -/
def isE164 (s : String) : Bool :=
  let cs :=
    match s.data with
    | '+' :: r => r
    | r => r
  match cs with
  | c :: rest =>
      ('1' ≤ c && c ≤ '9') && rest.all Char.isDigit &&
        decide (1 ≤ rest.length) && decide (rest.length ≤ 14)
  | [] => false

/-- Transcription of `SNSBackend.subscribe`: SMS endpoints are validated
first; an existing topic+endpoint+protocol triple is returned as is; a
new subscription gets the supplied fresh arn (modelling
`make_arn_for_subscription`'s random suffix) and the fixed attribute
map, and is appended to the registry. -/
def subscribe (st : SNSBackend) (topicArn endpoint protocol : String)
    (freshSubArn : String) : Except Err Subscription × SNSBackend :=
  if protocol == "sms" &&
      (hasDoubleSep endpoint.data || hasEdgeSep endpoint.data) then
    (.error (.snsInvalidParameter ("Invalid SMS endpoint: " ++ endpoint)), st)
  else if protocol == "sms" &&
      !isE164 (String.mk (endpoint.data.filter (fun c => !isSepChar c))) then
    (.error (.snsInvalidParameter ("Invalid SMS endpoint: " ++ endpoint)), st)
  else
    match findSubscription st topicArn endpoint protocol with
    | some old => (.ok old, st)
    | none =>
        match alFind topicArn st.topics with
        | none =>
            (.error (.snsNotFound ("Topic with arn " ++ topicArn ++ " not found")), st)
        | some topic =>
            let attrs : List (String × String) :=
              [("PendingConfirmation", "false"),
               ("ConfirmationWasAuthenticated", "true"),
               ("Endpoint", endpoint),
               ("TopicArn", topicArn),
               ("Protocol", protocol),
               ("SubscriptionArn", freshSubArn),
               ("Owner", st.accountId),
               ("RawMessageDelivery", "false")] ++
                (if protocol == "http" || protocol == "https" then
                   [("EffectiveDeliveryPolicy", topic.effectiveDeliveryPolicy)]
                 else [])
            let sub : Subscription :=
              { arn := freshSubArn, topicArn := topic.arn, endpoint := endpoint,
                protocol := protocol, attributes := attrs, filterPolicy := none }
            (.ok sub, { st with subscriptions := alSet freshSubArn sub st.subscriptions })

/-- Python `endpoint.split(":")` on the character list. -/
def splitCols : List Char → List String
  | [] => [""]
  | c :: r =>
      let rest := splitCols r
      if c == ':' then "" :: rest
      else
        match rest with
        | h :: t => String.mk (c :: h.data) :: t
        | [] => [String.mk [c]]

/-- Python `s.split(":")`. -/
def splitColon (s : String) : List String := splitCols s.data

/-- Message attribute dict rendered back into a JSON-able value for the
notification envelope. -/
def attrsToPyVal (m : MsgAttrs) : PyVal :=
  .dict (m.map (fun kv =>
    (kv.1, PyVal.dict [("Type", .str kv.2.type), ("Value", .str kv.2.value)])))

/-- Transcription of `Subscription.get_post_data`: the notification
envelope. The wall-clock timestamp is passed in explicitly. -/
def getPostData (topicArn accountId : String) (message messageId : String)
    (subject : Option String) (messageAttributes : Option MsgAttrs)
    (now : String) : PyVal :=
  .dict
    ([("Type", .str "Notification"),
      ("MessageId", .str messageId),
      ("TopicArn", .str topicArn),
      ("Message", .str message),
      ("Timestamp", .str now),
      ("SignatureVersion", .str "1"),
      ("Signature", .str "EXAMPLElDMXvB8r9R83tGoNn0ecwd5UjllzsvSvbItzfaMpN2nk5HVSw7XnOn/49IkxDKz8YrlH2qJXj2iZB0Zo2O71c4qQk1fMUDi3LGpij7RCW7AW9vYYsSqIKRnFS94ilu7NFhUzLiieYr4BKHpdTmdD6c0esKEYBpabxDSc="),
      ("SigningCertURL", .str "https://sns.us-east-1.amazonaws.com/SimpleNotificationService-f3ecfb7224c7233fe7bb5f59f96de52f.pem"),
      ("UnsubscribeURL", .str ("https://sns.us-east-1.amazonaws.com/?Action=Unsubscribe&SubscriptionArn=arn:aws:sns:us-east-1:" ++ accountId ++ ":some-topic:2bcfbf39-05c3-41de-beaa-fcfcc21c8f55"))] ++
      (match subject with
       | some s => if !s.data.isEmpty then [("Subject", PyVal.str s)] else []
       | none => []) ++
      (match messageAttributes with
       | some m => if !m.isEmpty then [("MessageAttributes", attrsToPyVal m)] else []
       | none => []))

/-- Raw-delivery rendering of one message attribute
(`data_type` plus a `string_value`/`binary_value` slot). -/
structure RawMsgAttr where
  dataType : String
  binarySlot : Bool
  value : String

/-- Value handed to a downstream transport adapter on a successful
dispatch: the queue injection (enveloped or raw), webhook POST, or
function invocation described in the source's protocol branches. -/
inductive Delivery where
  | sqsEnvelope (queueName region : String) (postData : PyVal)
      (dedupId groupId : Option String)
  | sqsRaw (queueName region : String) (message : String)
      (rawAttrs : List (String × RawMsgAttr)) (dedupId groupId : Option String)
  | httpPost (endpoint : String) (postData : PyVal)
  | lambdaInvoke (functionName : String) (message : String)
      (subject : Option String) (qualifier : Option String)

/-- Transcription of `Subscription.publish`: the filter policy is
evaluated first (exceptions propagate); a matching message is dispatched
per protocol. The downstream collaborators (`sqs_backends.send_message`,
`requests.post`, `lambda.send_sns_message`) are modelled by the
`adapter` oracle — an `ok` performs the delivery, an `error` stands for
whatever exception the collaborator raises. Unknown protocols deliver
nothing. -/
def subscriptionPublish (adapter : Subscription → Except Unit Unit)
    (accountId : String) (sub : Subscription) (message messageId : String)
    (subject : Option String) (messageAttributes : Option MsgAttrs)
    (groupId dedupId : Option String) (now : String) :
    Except Err (List Delivery) :=
  match matchesFilterPolicy sub.filterPolicy messageAttributes with
  | .error e => .error e
  | .ok false => .ok []
  | .ok true =>
      if sub.protocol == "sqs" then
        let parts := splitColon sub.endpoint
        let queueName := parts.getLastD ""
        match parts.get? 3 with
        | none => .error .indexError
        | some region =>
            if !(alFind "RawMessageDelivery" sub.attributes == some "true") then
              let pd := getPostData sub.topicArn accountId message messageId subject
                messageAttributes now
              match adapter sub with
              | .ok _ => .ok [.sqsEnvelope queueName region pd dedupId groupId]
              | .error _ => .error .deliveryError
            else
              match messageAttributes with
              | none => .error .attributeError
              | some attrs =>
                  let raws := attrs.map (fun kv =>
                    (kv.1,
                     { dataType := kv.2.type,
                       binarySlot := "Binary".data.isPrefixOf kv.2.type.data,
                       value := kv.2.value : RawMsgAttr }))
                  match adapter sub with
                  | .ok _ => .ok [.sqsRaw queueName region message raws dedupId groupId]
                  | .error _ => .error .deliveryError
      else if sub.protocol == "http" || sub.protocol == "https" then
        let pd := getPostData sub.topicArn accountId message messageId subject none now
        match adapter sub with
        | .ok _ => .ok [.httpPost sub.endpoint pd]
        | .error _ => .error .deliveryError
      else if sub.protocol == "lambda" then
        let arr := splitColon sub.endpoint
        match arr.get? 3 with
        | none => .error .indexError
        | some _ =>
            if arr.length == 7 then
              if arr.get? 5 == some "function" then
                match adapter sub with
                | .ok _ => .ok [.lambdaInvoke (arr.getLastD "") message subject none]
                | .error _ => .error .deliveryError
              else .error .assertionError
            else if arr.length == 8 then
              if arr.get? 5 == some "function" then
                match adapter sub with
                | .ok _ =>
                    .ok [.lambdaInvoke ((arr.get? 6).getD "") message subject
                      (some (arr.getLastD ""))]
                | .error _ => .error .deliveryError
              else .error .assertionError
            else .error .assertionError
      else .ok []

/-- Delivery loop of `Topic.publish` over the subscription page: an
exception from one subscription's dispatch aborts the loop; deliveries
already performed are kept. -/
def deliverLoop (adapter : Subscription → Except Unit Unit) (accountId : String)
    (message messageId : String) (subject : Option String)
    (messageAttributes : Option MsgAttrs) (groupId dedupId : Option String)
    (now : String) : List Subscription → List Delivery × Option Err
  | [] => ([], none)
  | s :: rest =>
      match subscriptionPublish adapter accountId s message messageId subject
        messageAttributes groupId dedupId now with
      | .error e => ([], some e)
      | .ok ds =>
          let (ds', e') := deliverLoop adapter accountId message messageId subject
            messageAttributes groupId dedupId now rest
          (ds ++ ds', e')

/-- Transcription of `Topic.publish`: a fresh message id is drawn, every
subscription of the first registry page is dispatched in order, and only
then is the message appended to the topic's `sent_notifications` log; an
exception anywhere leaves the log untouched and propagates. -/
def topicPublish (adapter : Subscription → Except Unit Unit) (st : SNSBackend)
    (t : Topic) (message : String) (subject : Option String)
    (messageAttributes : Option MsgAttrs) (groupId dedupId : Option String)
    (now : String) : Except Err String × SNSBackend × List Delivery :=
  let (messageId, st1) := freshUuid st
  match listSubscriptionsByTopic st1 t.arn with
  | .error e => (.error e, st1, [])
  | .ok subs =>
      let (ds, e?) := deliverLoop adapter st1.accountId message messageId subject
        messageAttributes groupId dedupId now subs
      match e? with
      | some e => (.error e, st1, ds)
      | none =>
          let entry : SentNotification :=
            { messageId := messageId, message := message, subject := subject,
              messageAttributes := messageAttributes, groupId := groupId }
          let t' := { t with sentNotifications := t.sentNotifications ++ [entry] }
          (.ok messageId, { st1 with topics := alSet t.arn t' st1.topics }, ds)

/-- Python `s.lower()`. -/
def strLower (s : String) : String := String.mk (s.data.map Char.toLower)

/-- Transcription of `PlatformEndpoint.enabled` combined with
`PlatformEndpoint.publish`: `json.loads` of the lowered `Enabled`
attribute decides the flag (raising on undecodable text); a disabled
endpoint raises, otherwise the message is logged under a fresh id. -/
def endpointPublish (st : SNSBackend) (ep : PlatformEndpoint) (message : String) :
    Except Err String × SNSBackend :=
  match jsonLoads (strLower ((alFind "Enabled" ep.attributes).getD "true")) with
  | none => (.error .jsonDecodeError, st)
  | some v =>
      if !pyTruthy v then
        (.error (.endpointDisabled ("Endpoint " ++ ep.arn ++ " disabled")), st)
      else
        let (messageId, st1) := freshUuid st
        let ep' := { ep with messages := ep.messages ++ [(messageId, message)] }
        (.ok messageId,
         { st1 with platformEndpoints := alSet ep.arn ep' st1.platformEndpoints })

/-- Subject length check of `SNSBackend.publish`
(`subject is not None and len(subject) > 100`). -/
def subjectTooLong : Option String → Bool
  | some s => decide (strLen s > 100)
  | none => false

/-- Transcription of `SNSBackend.publish`: subject length check, SMS
path, message length check, then the topic path inside the
`try`/`except SNSNotFoundError` that falls back to the platform-endpoint
path. The returned state is the post-exception state (Python mutations
performed before a raise stay in place), and the delivery list records
the adapter calls performed. -/
def publish (adapter : Subscription → Except Unit Unit) (st : SNSBackend)
    (message : String) (arn : Option String) (phoneNumber : Option String)
    (subject : Option String) (messageAttributes : Option MsgAttrs)
    (groupId dedupId : Option String) (now : String) :
    Except Err String × SNSBackend × List Delivery :=
  if subjectTooLong subject then
    (.error (.valueError "Subject must be less than 100 characters"), st, [])
  else if strOptTruthy phoneNumber then
    (if strLen message > 1600 then
       (.error (.valueError "SMS message must be less than 1600 bytes"), st, [])
     else
       let (messageId, st1) := freshUuid st
       (.ok messageId,
        { st1 with
          smsMessages :=
            alSet messageId (phoneNumber.getD "", message) st1.smsMessages }, []))
  else if strLen message > 262144 then
    (.error (.invalidParameterValue "An error occurred (InvalidParameter) when calling the Publish operation: Invalid parameter: Message too long"), st, [])
  else
    let tryBody : Except Err String × SNSBackend × List Delivery :=
      match getTopic st arn with
      | .error e => (.error e, st, [])
      | .ok topic =>
          let fifoTopic := topic.fifoTopic == "true"
          if fifoTopic && !strOptTruthy groupId then
            (.error (.missingParameter "MessageGroupId"), st, [])
          else if fifoTopic && topic.contentBasedDeduplication == "false" &&
              !strOptTruthy dedupId then
            (.error (.invalidParameterValue "The topic should either have ContentBasedDeduplication enabled or MessageDeduplicationId provided explicitly"), st, [])
          else if !fifoTopic && (strOptTruthy groupId || strOptTruthy dedupId) then
            let parameter :=
              if strOptTruthy groupId then "MessageGroupId" else "MessageDeduplicationId"
            (.error (.invalidParameterValue ("Invalid parameter: " ++ parameter ++ " Reason: The request includes " ++ parameter ++ " parameter that is not valid for this topic type")), st, [])
          else
            topicPublish adapter st topic message subject messageAttributes groupId
              dedupId now
    match tryBody with
    | (.error (.snsNotFound _), st', ds) =>
        (match arn.bind (fun a => alFind a st'.platformEndpoints) with
         | none => (.error (.snsNotFound "Endpoint does not exist"), st', ds)
         | some ep =>
             let (r, st'') := endpointPublish st' ep message
             (r, st'', ds))
    | other => other

/-- Whitelisted subscription attribute names. -/
def subscriptionAttributeNames : List String :=
  ["RawMessageDelivery", "DeliveryPolicy", "FilterPolicy", "RedrivePolicy",
   "SubscriptionRoleArn"]

/-- Replacement of the first registry entry whose subscription carries
the given arn (Python mutates the found object in place). -/
def updateFirstSub (arn : String) (f : Subscription → Subscription) :
    List (String × Subscription) → List (String × Subscription)
  | [] => []
  | (k, s) :: rest =>
      if s.arn == arn then (k, f s) :: rest
      else (k, s) :: updateFirstSub arn f rest

/-- Transcription of `SNSBackend.set_subscription_attributes`: name
whitelist, subscription lookup, then — in source order — the attribute
map is written *before* a `FilterPolicy` value is decoded and validated,
so a failing validation leaves the new raw value in the attribute map
while the compiled `_filter_policy` is only swapped on success. -/
def setSubscriptionAttributes (st : SNSBackend) (arn name value : String) :
    Except Err Unit × SNSBackend :=
  if !(subscriptionAttributeNames.contains name) then
    (.error (.snsInvalidParameter "AttributeName"), st)
  else
    match (alValues st.subscriptions).find? (fun s => s.arn == arn) with
    | none => (.error (.snsNotFound ("Subscription with arn " ++ arn ++ " not found")), st)
    | some _ =>
        let st1 :=
          { st with
            subscriptions := updateFirstSub arn
              (fun s => { s with attributes := alSet name value s.attributes })
              st.subscriptions }
        if name == "FilterPolicy" then
          match jsonLoads value with
          | none => (.error .jsonDecodeError, st1)
          | some (.dict entries) =>
              (match validateFilterPolicy entries with
               | .error e => (.error e, st1)
               | .ok _ =>
                   (.ok (),
                    { st1 with
                      subscriptions := updateFirstSub arn
                        (fun s => { s with filterPolicy := some entries })
                        st1.subscriptions }))
          | some _ => (.error .attributeError, st1)
        else (.ok (), st1)

/-- Entry of a `publish_batch` request. `Id` and `Message` are the keys
read unconditionally; `MessageGroupId` presence models the `in` /
`.get` pair on that key. -/
structure BatchEntry where
  id : String
  message : String
  subject : Option String
  messageAttributes : Option MsgAttrs
  messageGroupId : Option String

/-- Record appended to the `successful` list of `publish_batch`. -/
structure SuccessEntry where
  messageId : String
  entryId : String
deriving DecidableEq

/-- Record appended to the `failed` list of `publish_batch`. -/
structure FailedEntry where
  id : String
  code : String
  message : String
  senderFault : Bool
deriving DecidableEq

/-- Message text of an exception as read by `publish_batch` (`e.message`
is only consulted on `InvalidParameterValue` instances). -/
def Err.message : Err → String
  | .invalidParameterValue m => m
  | _ => ""

/-- Per-entry loop of `publish_batch`: each entry is published with the
entry's subject/attributes/group id (never a deduplication id); a
successful publish is recorded, an `InvalidParameterValue` failure is
recorded as a failed entry, and any other exception is swallowed
without a record. -/
def batchLoop (adapter : Subscription → Except Unit Unit) (topicArn : String)
    (now : String) :
    SNSBackend → List BatchEntry →
      List SuccessEntry × List FailedEntry × SNSBackend × List Delivery
  | st, [] => ([], [], st, [])
  | st, e :: rest =>
      let (res, st1, ds) := publish adapter st e.message (some topicArn) none
        e.subject (some (e.messageAttributes.getD [])) e.messageGroupId none now
      let (s, f, st2, ds2) := batchLoop adapter topicArn now st1 rest
      match res with
      | .ok mid => ({ messageId := mid, entryId := e.id } :: s, f, st2, ds ++ ds2)
      | .error err =>
          if err.isInvalidParameterValue then
            (s,
             { id := e.id, code := "InvalidParameter", message := err.message,
               senderFault := true } :: f,
             st2, ds ++ ds2)
          else (s, f, st2, ds ++ ds2)

/-- Transcription of `SNSBackend.publish_batch`: topic resolution (its
absence is re-raised as `TopicNotFound`), whole-batch checks (at most 10
entries, pairwise-distinct ids, group ids present on a FIFO topic), then
the independent per-entry loop. -/
def publishBatch (adapter : Subscription → Except Unit Unit) (st : SNSBackend)
    (topicArn : String) (entries : List BatchEntry) (now : String) :
    Except Err (List SuccessEntry × List FailedEntry) × SNSBackend × List Delivery :=
  match alFind topicArn st.topics with
  | none => (.error .topicNotFoundErr, st, [])
  | some topic =>
      if entries.length > 10 then (.error .tooManyEntriesInBatch, st, [])
      else if !(entries.map (fun e => e.id)).Nodup then
        (.error .batchEntryIdsNotDistinct, st, [])
      else if topic.fifoTopic == "true" &&
          !(entries.all (fun e => e.messageGroupId.isSome)) then
        (.error (.snsInvalidParameter "Invalid parameter: The MessageGroupId parameter is required for FIFO topics"), st, [])
      else
        let (s, f, st', ds) := batchLoop adapter topicArn now st entries
        (.ok (s, f), st', ds)

/-- Policy with per-field rule lists injected into the decoded-dict shape
consumed by the matcher and validator. Claims quantify over policies of
this field→rule-list form. -/
def toPolicyVal (P : List (String × List PyVal)) : List (String × PyVal) :=
  P.map (fun fr => (fr.1, PyVal.list fr.2))

/-- Claim-side per-rule match relation, written after the spec's §4.2
wording (order-independent by construction): a field absent from the
message satisfies no rule other than `exists:false`; a literal string
matches by equality or JSON containment; a literal number needs a
`Number`/`String.Array` attribute matching at six-decimal precision;
`exists`, `prefix`, `anything-but` and `numeric` follow their §4.2
clauses. Used only to compare the spec's matching criterion with the
code's. -/
def claimRuleMatches (field : String) (m : MsgAttrs) (rule : PyVal) : Bool :=
  match attrFind field m with
  | none =>
      (match rule with
       | .dict [("exists", .bool false)] => true
       | _ => false)
  | some attr =>
      match rule with
      | .str s =>
          attr.value == s ||
            (match jsonLoads attr.value with
             | some jd => (strInPy s jd).getD false
             | none => false)
      | .num q =>
          if attr.type == "Number" then
            (match parseDecimal attr.value with
             | some v => intTimesMillion v == intTimesMillion q
             | none => false)
          else if attr.type == "String.Array" then
            (match jsonLoads attr.value with
             | some (.list l) =>
                 l.any (fun e =>
                   match pyFloat e with
                   | some v => intTimesMillion v == intTimesMillion q
                   | none => false)
             | _ => false)
          else false
      | .dict [("exists", .bool b)] => b
      | .dict [("prefix", .str p)] =>
          attr.type == "String" && p.data.isPrefixOf attr.value.data
      | .dict [("anything-but", .dict [("prefix", .str p)])] =>
          !(p.data.isPrefixOf attr.value.data)
      | .dict [("anything-but", .str s)] => !(attr.value == s)
      | .dict [("anything-but", .list l)] => !(pyInList (.str attr.value) l)
      | .dict [("numeric", .list toks)] =>
          attr.type == "Number" &&
            (match parseDecimal attr.value with
             | some v =>
                 (pairUp toks).all (fun p =>
                   match p.1, pyFloat p.2 with
                   | .str ">", some b => decide (b < v)
                   | .str ">=", some b => decide (b ≤ v)
                   | .str "=", some b => v == b
                   | .str "<", some b => decide (v < b)
                   | .str "<=", some b => decide (v ≤ b)
                   | _, _ => false)
             | none => false)
      | _ => false

/-- Claim-side matching criterion of C1: every field of the policy has at
least one rule (in the §4.2 sense) matching the message. -/
def claimMatches (P : List (String × List PyVal)) (m : MsgAttrs) : Bool :=
  P.all (fun fr => fr.2.any (claimRuleMatches fr.1 m))

/-- Claim-side numeric criterion of C2: Python `round(q * 1000000)`
(round half to even), computed on the exact fraction. -/
def roundTimesMillion (q : ℚ) : ℤ :=
  let n : ℤ := q.num * 1000000
  let d : ℤ := (q.den : ℤ)
  let fl : ℤ := Int.fdiv n d
  let r2 : ℤ := 2 * (n - fl * d)
  if r2 < d then fl
  else if d < r2 then fl + 1
  else if fl % 2 == 0 then fl
  else fl + 1

/-- Bool discriminators on rule-step outcomes, used to state the
order-independent reading of the matcher. -/
def StepRes.isMatched : StepRes → Bool
  | .matched => true
  | _ => false

/-- An early exit of the rule loop: an immediate `return False` or a
propagating exception (the outcomes that make rule order matter). -/
def StepRes.isEarlyExit : StepRes → Bool
  | .failField => true
  | .raised _ => true
  | _ => false

/-- Concrete fixtures used by witnesses and counterexamples: a non-FIFO
and a FIFO topic, two http subscriptions, and backend states holding
them. -/
def exTopic : Topic :=
  { name := "t", arn := "arn:t", fifoTopic := "false",
    contentBasedDeduplication := "false", effectiveDeliveryPolicy := "edp",
    sentNotifications := [] }

/-- FIFO variant of the example topic. -/
def exTopicFifo : Topic := { exTopic with fifoTopic := "true" }

/-- First example subscription (http, no filter policy). -/
def exSub1 : Subscription :=
  { arn := "s1", topicArn := "arn:t", endpoint := "http://a",
    protocol := "http", attributes := [], filterPolicy := none }

/-- Second example subscription. -/
def exSub2 : Subscription := { exSub1 with arn := "s2", endpoint := "http://b" }

/-- Example backend state with the non-FIFO topic and both
subscriptions. -/
def exSt : SNSBackend :=
  { accountId := "123", regionName := "us-east-1",
    topics := [("arn:t", exTopic)],
    subscriptions := [("s1", exSub1), ("s2", exSub2)],
    platformEndpoints := [], smsMessages := [], uuidCounter := 0 }

/-- Example backend state with the FIFO topic. -/
def exStFifo : SNSBackend := { exSt with topics := [("arn:t", exTopicFifo)] }

/-- Adapter oracle with every delivery succeeding. -/
def okAdapter : Subscription → Except Unit Unit := fun _ => .ok ()

/-- Adapter oracle failing exactly on subscription `s2`. -/
def failS2Adapter : Subscription → Except Unit Unit :=
  fun s => if s.arn == "s2" then .error () else .ok ()

/-- Product of the rule-list lengths across a policy's fields. -/
def ruleProduct (P : List (String × List PyVal)) : Nat :=
  P.foldr (fun fr acc => fr.2.length * acc) 1

/-- Policy with rule counts 6, 6, 5 (product 180 > 150). -/
def c3P : List (String × List PyVal) :=
  [("a", List.replicate 6 (.num 1)), ("b", List.replicate 6 (.num 1)),
   ("c", List.replicate 5 (.num 1))]

/-- Raw JSON text of `c3P`. -/
def c3Str : String :=
  "\x7b\"a\":[1,1,1,1,1,1],\"b\":[1,1,1,1,1,1],\"c\":[1,1,1,1,1]\x7d"

/-- Message body one character over the 256 KiB limit. -/
def bigMsg : String := String.mk (List.replicate 262145 'a')

/-- SMS endpoint validation of `subscribe` passes. -/
def smsChecksPass (endpoint : String) : Bool :=
  !(hasDoubleSep endpoint.data || hasEdgeSep endpoint.data) &&
    isE164 (String.mk (endpoint.data.filter (fun c => !isSepChar c)))

/-- Subscription created by the C5 witness's first fresh subscribe. -/
def exSub3 : Subscription :=
  { arn := "s3", topicArn := "arn:t", endpoint := "http://c", protocol := "http",
    attributes :=
      [("PendingConfirmation", "false"),
       ("ConfirmationWasAuthenticated", "true"),
       ("Endpoint", "http://c"),
       ("TopicArn", "arn:t"),
       ("Protocol", "http"),
       ("SubscriptionArn", "s3"),
       ("Owner", "123"),
       ("RawMessageDelivery", "false"),
       ("EffectiveDeliveryPolicy", "edp")],
    filterPolicy := none }

/-- Raw policy text whose `exists` value is not a boolean (fails
validation). -/
def badPolicyStr : String := "\x7b\"a\": [\x7b\"exists\": 0\x7d]\x7d"

/-- Deliveries of a subscription dispatch outcome (`[]` on an error). -/
def okDeliveries : Except Err (List Delivery) → List Delivery
  | .ok ds => ds
  | .error _ => []

/-- Adapter oracle failing exactly on subscription `s1`. -/
def failS1Adapter : Subscription → Except Unit Unit :=
  fun s => if s.arn == "s1" then .error () else .ok ()

/-- Fate of one batch entry inside the per-entry loop: success, a
recorded failure (`InvalidParameterValue`), or a swallowed exception. -/
inductive EntryFate where
  | succeeds
  | failsInvalidParameter (msg : String)
  | dropped

/-- Classification of a batch entry by the checks `publish` runs for a
`publish_batch` call (no phone number, no deduplication id), read off
the code's branch order: oversize subject raises `ValueError`
(swallowed), oversize body raises `InvalidParameterValue` (recorded),
a FIFO topic without a truthy group id raises `MissingParameter`
(swallowed), a FIFO topic with deduplication disabled raises
`InvalidParameterValue` (recorded), a truthy group id on a standard
topic raises `InvalidParameterValue` (recorded); otherwise the entry
publishes. -/
def entryFate (fifo cbd : String) (e : BatchEntry) : EntryFate :=
  if subjectTooLong e.subject then .dropped
  else if strLen e.message > 262144 then
    .failsInvalidParameter "An error occurred (InvalidParameter) when calling the Publish operation: Invalid parameter: Message too long"
  else if fifo == "true" then
    (if !strOptTruthy e.messageGroupId then .dropped
     else if cbd == "false" then
       .failsInvalidParameter "The topic should either have ContentBasedDeduplication enabled or MessageDeduplicationId provided explicitly"
     else .succeeds)
  else if strOptTruthy e.messageGroupId then
    .failsInvalidParameter "Invalid parameter: MessageGroupId Reason: The request includes MessageGroupId parameter that is not valid for this topic type"
  else .succeeds

def EntryFate.isSuccess : EntryFate → Bool
  | .succeeds => true
  | _ => false

def EntryFate.isFailIPV : EntryFate → Bool
  | .failsInvalidParameter _ => true
  | _ => false

def fateMsg : EntryFate → String
  | .failsInvalidParameter m => m
  | _ => ""

/-- The failed-entry records `publish_batch` accumulates: one per entry
whose fate is a recorded failure, with code `InvalidParameter`, the
exception's message, and the sender-fault flag. -/
def failedOf (fifo cbd : String) (entries : List BatchEntry) : List FailedEntry :=
  (entries.filter (fun e => (entryFate fifo cbd e).isFailIPV)).map
    (fun e =>
      { id := e.id, code := "InvalidParameter",
        message := fateMsg (entryFate fifo cbd e), senderFault := true })

/-- The successful-entry records `publish_batch` accumulates, with the
message ids the uuid counter (starting at `c0`) hands out to the
succeeding entries in order. -/
def successOf (fifo cbd : String) (c0 : Nat) : List BatchEntry → List SuccessEntry
  | [] => []
  | e :: rest =>
      match entryFate fifo cbd e with
      | .succeeds =>
          { messageId := "msg-" ++ toString c0, entryId := e.id } ::
            successOf fifo cbd (c0 + 1) rest
      | _ => successOf fifo cbd c0 rest

/-- Invariant threaded through the batch loop: the registry holds a
topic under `topicArn` whose own arn is that key and whose FIFO and
deduplication settings are `fifo`/`cbd`, and no subscription targets
the topic. -/
def BatchInv (topicArn fifo cbd : String) (st : SNSBackend) : Prop :=
  (∃ t, alFind topicArn st.topics = some t ∧ t.arn = topicArn ∧
    t.fifoTopic = fifo ∧ t.contentBasedDeduplication = cbd) ∧
  (alValues st.subscriptions).filter (fun s => s.topicArn == topicArn) = []

/-- Backend with the example topic and no subscriptions. -/
def c7St : SNSBackend :=
  { accountId := "123", regionName := "us-east-1",
    topics := [("arn:t", exTopic)],
    subscriptions := [], platformEndpoints := [], smsMessages := [],
    uuidCounter := 0 }

/-- First example batch entry (publishes fine). -/
def b1 : BatchEntry :=
  { id := "e1", message := "m1", subject := none, messageAttributes := none,
    messageGroupId := none }

/-- Second example batch entry: its body exceeds 262144 characters. -/
def b2 : BatchEntry := { b1 with id := "e2", message := bigMsg }

/-- Third example batch entry (publishes fine). -/
def b3 : BatchEntry := { b1 with id := "e3", message := "m3" }

/-- Batch entry whose subject is 101 characters long: its publish
raises a `ValueError`, which `publish_batch` swallows. -/
def entBadSubj : BatchEntry :=
  { b1 with subject := some (String.mk (List.replicate 101 'a')) }

/-- C2 (amended): a literal-number rule `r` against a `Number`-typed
message attribute whose value string parses to `q` matches iff
`int(q * 1000000)` equals `int(r * 1000000)` as integers — truncation
toward zero (Python `int`), not rounding. -/
theorem C2_theorem (field : String) (m : MsgAttrs) (s : String) (q r : ℚ)
    (hattr : attrFind field m = some ⟨"Number", s⟩)
    (hparse : parseDecimal s = some q) :
    ruleStep field m (.num r) = .matched ↔
      intTimesMillion q = intTimesMillion r := by
  have hpf : pyFloatE (.str s) = .ok q := by
    simp [pyFloatE, hparse]
  unfold ruleStep numericLiteralStep
  rw [hattr]
  by_cases h : intTimesMillion q = intTimesMillion r
  · simp [numericLiteralLoop, hpf, h]
  · simp [numericLiteralLoop, hpf, h]

/-- C2 is refuted as stated: the message value `0.0000017` and the rule
`0.0000023` have equal values of `round(v * 1000000)` (both round to 2),
so the claim's criterion says they match, but the code compares with
truncating `int()` (1 against 2) and does not match. -/
theorem C2_counterexample :
    matchesFilterPolicy (some [("a", .list [.num (mkRat 23 10000000)])])
        (some [("a", ⟨"Number", "0.0000017"⟩)]) = .ok false ∧
    roundTimesMillion (mkRat 17 10000000) = roundTimesMillion (mkRat 23 10000000) ∧
    roundTimesMillion (mkRat 17 10000000) = 2 ∧
    intTimesMillion (mkRat 17 10000000) = 1 ∧
    intTimesMillion (mkRat 23 10000000) = 2 := by
  exact ⟨rfl, by decide, by decide, by decide, by decide⟩

/-- Witness for C2: the claim's own concrete examples under the amended
truncation criterion — `1.0000001` matches a rule `1.0000005`, and
`1.00001` does not match `1.00002`. -/
theorem C2_witness :
    ruleStep "a" [("a", ⟨"Number", "1.0000001"⟩)]
        (.num (mkRat 10000005 10000000)) = .matched ∧
    ¬ ruleStep "a" [("a", ⟨"Number", "1.00001"⟩)]
        (.num (mkRat 100002 100000)) = .matched := by
  constructor
  · exact ( C2_theorem "a" [("a", ⟨"Number", "1.0000001"⟩)] "1.0000001"
      (mkRat 10000001 10000000) (mkRat 10000005 10000000) rfl (by decide)).mpr
      (by decide)
  · intro h
    exact absurd (( C2_theorem "a" [("a", ⟨"Number", "1.00001"⟩)] "1.00001"
      (mkRat 100001 100000) (mkRat 100002 100000) rfl (by decide)).mp h)
      (by decide)

/-- Rules free of early exits make `_field_match` an order-independent
disjunction: the sequential loop returns exactly "some rule matched". -/
theorem fieldMatch_eq_any (field : String) (m : MsgAttrs) (rules : List PyVal)
    (h : ∀ r ∈ rules, (ruleStep field m r).isEarlyExit = false) :
    fieldMatch field m rules =
      .ok (rules.any (fun r => (ruleStep field m r).isMatched)) := by
  induction rules with
  | nil => rfl
  | cons r rest ih =>
      have hr := h r (List.mem_cons_self r rest)
      have hrest : ∀ x ∈ rest, (ruleStep field m x).isEarlyExit = false :=
        fun x hx => h x (List.mem_cons_of_mem r hx)
      unfold fieldMatch
      cases hstep : ruleStep field m r with
      | matched => simp [hstep, StepRes.isMatched]
      | cont => simp [hstep, StepRes.isMatched, ih hrest]
      | failField => rw [hstep] at hr; simp [StepRes.isEarlyExit] at hr
      | raised e => rw [hstep] at hr; simp [StepRes.isEarlyExit] at hr

/-- Under the same hypothesis, the field conjunction computes the AND of
the per-field disjunctions. -/
theorem matchAllFields_eq_all (m : MsgAttrs) (P : List (String × List PyVal))
    (h : ∀ fr ∈ P, ∀ r ∈ fr.2, (ruleStep fr.1 m r).isEarlyExit = false) :
    matchAllFields m (toPolicyVal P) =
      .ok (P.all (fun fr => fr.2.any (fun r => (ruleStep fr.1 m r).isMatched))) := by
  induction P with
  | nil => rfl
  | cons fr rest ih =>
      obtain ⟨f, rs⟩ := fr
      have h1 : ∀ r ∈ rs, (ruleStep f m r).isEarlyExit = false :=
        fun r hr => h (f, rs) (List.mem_cons_self _ _) r hr
      have hrest : ∀ fr ∈ rest, ∀ r ∈ fr.2, (ruleStep fr.1 m r).isEarlyExit = false :=
        fun fr hfr => h fr (List.mem_cons_of_mem _ hfr)
      show matchAllFields m ((f, PyVal.list rs) :: toPolicyVal rest) = _
      unfold matchAllFields
      dsimp only [pyIterRules]
      rw [fieldMatch_eq_any f m rs h1]
      by_cases hany : rs.any (fun r => (ruleStep f m r).isMatched) = true
      · simp only [hany, ih hrest, List.all_cons]
        simp
      · simp only [Bool.not_eq_true] at hany
        simp only [hany, List.all_cons]
        simp

/-- C1 (amended): `Matches(P, M)` is the AND over fields of the OR over
each field's rule list, *provided* no rule of the policy takes an early
exit against `M` (a literal string or number rule with the field absent,
a number rule on a present attribute typed neither `Number` nor
`String.Array`, an `anything-but` operator object whose key is not
`prefix`, a failing numeric-range rule on a `Number` attribute, or a
rule raising a Python exception); on those paths the field's evaluation
stops immediately, so rule order can change the result, and an absent
field with an `exists:false` rule behind a literal rule does not match.
The right-hand side is order-independent in each rule list. -/
theorem C1_theorem (P : List (String × List PyVal)) (m : MsgAttrs)
    (h : ∀ fr ∈ P, ∀ r ∈ fr.2, (ruleStep fr.1 m r).isEarlyExit = false) :
    matchesFilterPolicy (some (toPolicyVal P)) (some m) = .ok true ↔
      ∀ fr ∈ P, ∃ r ∈ fr.2, (ruleStep fr.1 m r).isMatched = true := by
  simp only [matchesFilterPolicy, Option.getD_some]
  by_cases hP : P = []
  · subst hP
    simp [toPolicyVal]
  · have hne : (toPolicyVal P).isEmpty = false := by
      cases P with
      | nil => exact absurd rfl hP
      | cons a l => rfl
    rw [hne]
    simp only [Bool.false_eq_true, if_false]
    rw [matchAllFields_eq_all m P h]
    simp [List.all_eq_true, List.any_eq_true]

/-- C1 is refuted as stated: with policy field "a" carrying the rules
`["x", exists:false]` and an empty attribute set, the absent field
satisfies `exists:false`, so the claim's criterion matches, but the code
returns false; swapping the two rules flips the result to true, so the
outcome also depends on rule order. -/
theorem C1_counterexample :
    matchesFilterPolicy
        (some (toPolicyVal [("a", [.str "x", .dict [("exists", .bool false)]])]))
        (some []) = .ok false ∧
    claimMatches [("a", [.str "x", .dict [("exists", .bool false)]])] [] = true ∧
    matchesFilterPolicy
        (some (toPolicyVal [("a", [.dict [("exists", .bool false)], .str "x"])]))
        (some []) = .ok true :=
  ⟨rfl, rfl, rfl⟩

/-- Witness for C1: a hazard-free policy/message pair on which the
theorem's hypothesis holds and both sides of the equivalence are true. -/
theorem C1_witness :
    (∀ fr ∈ [("a", [PyVal.str "x"])], ∀ r ∈ fr.2,
        (ruleStep fr.1 [("a", ⟨"String", "x"⟩)] r).isEarlyExit = false) ∧
    (matchesFilterPolicy (some (toPolicyVal [("a", [PyVal.str "x"])]))
        (some [("a", ⟨"String", "x"⟩)]) = .ok true ↔
      ∀ fr ∈ [("a", [PyVal.str "x"])], ∃ r ∈ fr.2,
        (ruleStep fr.1 [("a", ⟨"String", "x"⟩)] r).isMatched = true) := by
  refine ⟨?_, C1_theorem _ _ ?_⟩ <;>
    · intro fr hfr r hr
      simp only [List.mem_singleton] at hfr
      subst hfr
      simp only [List.mem_singleton] at hr
      subst hr
      rfl

/-- C4 (amended): the numeric-range grammar accepts exactly a single
(operator, numeric bound) pair with one of the five operators, or a
lower pair (`>`/`>=`) followed by an upper pair (`<`/`<=`) with numeric
bounds and upper strictly greater than lower — but tokens after a
complete second pair are ignored, not rejected ("numeric" per the
source's `isinstance` check also admits booleans as bounds). The
claim's three concrete examples behave as stated. -/
theorem C4_theorem (toks : List PyVal) :
    (validateNumericRule (.list toks) = .ok () ↔
      (∃ o v, toks = [PyVal.str o, v] ∧
        (o = "<" ∨ o = "<=" ∨ o = "=" ∨ o = ">" ∨ o = ">=") ∧ isNumericPy v = true) ∨
      (∃ o v o2 v2 rest, toks = PyVal.str o :: v :: PyVal.str o2 :: v2 :: rest ∧
        (o = ">" ∨ o = ">=") ∧ (o2 = "<" ∨ o2 = "<=") ∧
        isNumericPy v = true ∧ isNumericPy v2 = true ∧ numToRat v < numToRat v2)) ∧
    validateNumericRule (.list [.str ">", .num 0, .str "<", .num 10]) = .ok () ∧
    validateNumericRule (.list [.str "<", .num 10, .str ">", .num 0]) =
      .error .filterNumericTooManyElements ∧
    validateNumericRule (.list [.str ">", .num 10, .str "<", .num 5]) =
      .error .filterNumericBottomGreater := by
  refine ⟨⟨fun hok => ?_, fun hd => ?_⟩, rfl, rfl, rfl⟩
  · rcases toks with _ | ⟨op, rest1⟩
    · simp [validateNumericRule] at hok
    rcases op with s | q | b | _ | l | d
    rotate_left
    · simp [validateNumericRule] at hok
    · simp [validateNumericRule] at hok
    · simp [validateNumericRule] at hok
    · simp [validateNumericRule] at hok
    · simp [validateNumericRule] at hok
    simp only [validateNumericRule] at hok
    by_cases h5 : (!(s == "<" || s == "<=" || s == "=" || s == ">" || s == ">=")) = true
    · rw [if_pos h5] at hok; simp at hok
    rw [if_neg h5] at hok
    have hbig : (s == "<" || s == "<=" || s == "=" || s == ">" || s == ">=") = true := by
      revert h5
      cases s == "<" || s == "<=" || s == "=" || s == ">" || s == ">=" <;> simp
    have h5' : s = "<" ∨ s = "<=" ∨ s = "=" ∨ s = ">" ∨ s = ">=" := by
      simp only [Bool.or_eq_true, beq_iff_eq] at hbig
      tauto
    rcases rest1 with _ | ⟨v, rest2⟩
    · simp at hok
    dsimp only at hok
    by_cases hv : isNumericPy v = true
    · rw [if_neg (by simp [hv])] at hok
      rcases rest2 with _ | ⟨op2, rest3⟩
      · left; exact ⟨s, v, rfl, h5', hv⟩
      dsimp only at hok
      by_cases hgt : (!(s == ">" || s == ">=")) = true
      · rw [if_pos hgt] at hok; simp at hok
      rw [if_neg hgt] at hok
      have hbgt : (s == ">" || s == ">=") = true := by
        revert hgt
        cases s == ">" || s == ">=" <;> simp
      have hgt' : s = ">" ∨ s = ">=" := by
        simp only [Bool.or_eq_true, beq_iff_eq] at hbgt
        tauto
      rcases op2 with s2 | q2 | b2 | _ | l2 | d2
      rotate_left
      · simp at hok
      · simp at hok
      · simp at hok
      · simp at hok
      · simp at hok
      dsimp only at hok
      by_cases h2 : (s2 == "<" || s2 == "<=") = true
      · rw [if_neg (by simp only [h2]; simp)] at hok
        rcases rest3 with _ | ⟨v2, rest4⟩
        · simp at hok
        dsimp only at hok
        by_cases hv2 : isNumericPy v2 = true
        · rw [if_neg (by simp [hv2])] at hok
          by_cases hle : numToRat v2 ≤ numToRat v
          · rw [if_pos hle] at hok; simp at hok
          · right
            refine ⟨s, v, s2, v2, rest4, rfl, hgt', ?_, hv, hv2, lt_of_not_le hle⟩
            simp only [Bool.or_eq_true, beq_iff_eq] at h2
            tauto
        · rw [if_pos (by rw [Bool.not_eq_true] at hv2; simp [hv2])] at hok
          simp at hok
      · rw [Bool.not_eq_true] at h2
        rw [if_pos (by simp [h2])] at hok
        simp at hok
    · rw [if_pos (by rw [Bool.not_eq_true] at hv; simp [hv])] at hok
      simp at hok
  · rcases hd with ⟨o, v, rfl, h5, hv⟩ |
      ⟨o, v, o2, v2, rest, rfl, hgt, hup, hv, hv2, hlt⟩
    · have hbig : (o == "<" || o == "<=" || o == "=" || o == ">" || o == ">=") = true := by
        rcases h5 with rfl | rfl | rfl | rfl | rfl <;> rfl
      simp only [validateNumericRule]
      rw [if_neg (by simp [hbig])]
      try dsimp only
      rw [if_neg (by simp [hv])]
    · have hbig : (o == "<" || o == "<=" || o == "=" || o == ">" || o == ">=") = true := by
        rcases hgt with rfl | rfl <;> rfl
      have hbgt : (o == ">" || o == ">=") = true := by
        rcases hgt with rfl | rfl <;> rfl
      have hb2 : (o2 == "<" || o2 == "<=") = true := by
        rcases hup with rfl | rfl <;> rfl
      simp only [validateNumericRule]
      rw [if_neg (by simp [hbig])]
      try dsimp only
      rw [if_neg (by simp [hv])]
      try dsimp only
      rw [if_neg (by simp [hbgt])]
      rw [if_neg (by simp [hb2])]
      try dsimp only
      rw [if_neg (by simp [hv2])]
      rw [if_neg (not_le.mpr hlt)]

/-- C4 is refuted as stated: tokens after a complete (lower, upper) pair
are silently ignored, so a six-token numeric list is accepted where the
claim requires a rejection. -/
theorem C4_counterexample :
    validateNumericRule
      (.list [.str ">", .num 0, .str "<", .num 10, .str ">", .num 999]) =
      .ok () := rfl

/-- The `combinations` loop computes exactly the rule-count product on a
field→rule-list policy. -/
theorem combinationsLoop_toPolicyVal (P : List (String × List PyVal)) :
    combinationsLoop (toPolicyVal P) = .ok (ruleProduct P) := by
  induction P with
  | nil => rfl
  | cons fr rest ih =>
      obtain ⟨f, rs⟩ := fr
      show combinationsLoop ((f, PyVal.list rs) :: toPolicyVal rest) = _
      unfold combinationsLoop
      dsimp only [pyLenRules]
      rw [ih]
      rfl

/-- The numeric-range check never raises the too-complex error. -/
theorem validateNumericRule_ne_tooComplex (v : PyVal) :
    validateNumericRule v ≠ .error .filterTooComplex := by
  intro h
  unfold validateNumericRule at h
  repeat' split at h
  all_goals first
    | (split at h <;> simp at h)
    | (rw [ite_eq_iff] at h; rcases h with ⟨_, h⟩ | ⟨_, h⟩ <;> simp at h)
    | simp at h

/-- The per-rule check never raises the too-complex error. -/
theorem validateRule_ne_tooComplex (r : PyVal) :
    validateRule r ≠ .error .filterTooComplex := by
  intro h
  unfold validateRule at h
  repeat' split at h
  all_goals first
    | simp at h
    | exact validateNumericRule_ne_tooComplex _ h

/-- The rule loop never raises the too-complex error. -/
theorem validateRulesList_ne_tooComplex (l : List PyVal) :
    validateRulesList l ≠ .error .filterTooComplex := by
  induction l with
  | nil => intro h; simp [validateRulesList] at h
  | cons r rest ih =>
      intro h
      unfold validateRulesList at h
      split at h
      next e heq =>
        simp only [Except.error.injEq] at h
        subst h
        exact validateRule_ne_tooComplex _ heq
      next u heq => exact ih h

/-- The field loop of the validator never raises the too-complex error. -/
theorem validateFieldsList_ne_tooComplex (l : List (String × PyVal)) :
    validateFieldsList l ≠ .error .filterTooComplex := by
  induction l with
  | nil => intro h; simp [validateFieldsList] at h
  | cons fr rest ih =>
      intro h
      unfold validateFieldsList at h
      split at h
      next e heq =>
        simp only [Except.error.injEq] at h
        subst h
        rcases fr with ⟨f, rv⟩
        cases rv <;> simp [pyIterRules] at heq
      next rules heq =>
        split at h
        next e heq2 =>
          simp only [Except.error.injEq] at h
          subst h
          exact validateRulesList_ne_tooComplex _ heq2
        next u heq2 => exact ih h

/-- Updating subscriptions through an attributes-only mutation preserves
every stored compiled filter policy. -/
theorem updateFirstSub_map_filterPolicy (arn : String)
    (f : Subscription → Subscription)
    (hf : ∀ s, (f s).filterPolicy = s.filterPolicy)
    (l : List (String × Subscription)) :
    (updateFirstSub arn f l).map (fun kv => kv.2.filterPolicy) =
      l.map (fun kv => kv.2.filterPolicy) := by
  induction l with
  | nil => rfl
  | cons kv rest ih =>
      obtain ⟨k, s⟩ := kv
      unfold updateFirstSub
      by_cases hs : (s.arn == arn) = true
      · simp [hs, hf]
      · simp only [Bool.not_eq_true] at hs
        simp [hs, ih]

/-- C3: the validator rejects a policy with the "too complex" error
exactly when the product of its rule-list lengths exceeds 150 (the
product is the first check, so it fires regardless of rule shapes), and
a policy rejected this way is never stored as any subscription's
compiled filter policy — though `set_subscription_attributes` has
already written the raw value into the attribute map (see C8). -/
theorem C3_theorem (P : List (String × List PyVal)) :
    (validateFilterPolicy (toPolicyVal P) = .error .filterTooComplex ↔
      150 < ruleProduct P) ∧
    (∀ (st : SNSBackend) (arn value : String),
      jsonLoads value = some (.dict (toPolicyVal P)) →
      150 < ruleProduct P →
      (((alValues st.subscriptions).find? (fun s => s.arn == arn)).isSome) →
      (setSubscriptionAttributes st arn "FilterPolicy" value).1 =
          .error .filterTooComplex ∧
        ((setSubscriptionAttributes st arn "FilterPolicy" value).2.subscriptions).map
            (fun kv => kv.2.filterPolicy) =
          st.subscriptions.map (fun kv => kv.2.filterPolicy)) := by
  have hiff : validateFilterPolicy (toPolicyVal P) = .error .filterTooComplex ↔
      150 < ruleProduct P := by
    unfold validateFilterPolicy
    rw [combinationsLoop_toPolicyVal P]
    dsimp only
    by_cases hgt : ruleProduct P > 150
    · simp [hgt]
    · rw [if_neg hgt]
      constructor
      · intro h
        exact absurd h (validateFieldsList_ne_tooComplex _)
      · intro h
        exact absurd h hgt
  refine ⟨hiff, fun st arn value hjson hgt hfind => ?_⟩
  unfold setSubscriptionAttributes
  rw [if_neg (by simp [subscriptionAttributeNames])]
  obtain ⟨sub, hsub⟩ := Option.isSome_iff_exists.mp hfind
  rw [hsub]
  dsimp only
  rw [if_pos (show ("FilterPolicy" == "FilterPolicy") = true from rfl)]
  rw [hjson]
  dsimp only
  rw [hiff.mpr hgt]
  dsimp only
  exact ⟨rfl, updateFirstSub_map_filterPolicy arn
    (fun s => { s with attributes := alSet "FilterPolicy" value s.attributes })
    (fun s => rfl) st.subscriptions⟩

/-- Witness for C3: a policy with rule counts 6·6·5 = 180 is rejected as
too complex and the stored compiled policies are untouched. -/
theorem C3_witness :
    150 < ruleProduct c3P ∧
    validateFilterPolicy (toPolicyVal c3P) = .error .filterTooComplex ∧
    (setSubscriptionAttributes exSt "s1" "FilterPolicy" c3Str).1 =
      .error .filterTooComplex ∧
    ((setSubscriptionAttributes exSt "s1" "FilterPolicy" c3Str).2.subscriptions).map
        (fun kv => kv.2.filterPolicy) =
      exSt.subscriptions.map (fun kv => kv.2.filterPolicy) := by
  have h := C3_theorem c3P
  have hgt : 150 < ruleProduct c3P := by decide
  have h2 := h.2 exSt "s1" c3Str rfl hgt rfl
  exact ⟨hgt, h.1.mpr hgt, h2.1, h2.2⟩

/-- Subject within the limit makes the subject check pass. -/
theorem subjectTooLong_eq_false (subject : Option String)
    (hsubj : ∀ s, subject = some s → strLen s ≤ 100) :
    subjectTooLong subject = false := by
  cases hs : subject with
  | none => rfl
  | some s => simp [subjectTooLong, Nat.not_lt.mpr (hsubj s hs)]

/-- C10: a non-phone publish whose body exceeds 262144 characters (and
whose subject passes its own earlier length check) fails with the exact
"Message too long" `InvalidParameter` error for every destination arn —
existing, missing, or `None` — before any destination resolution, and
leaves the backend state unchanged with no deliveries. -/
theorem C10_theorem (adapter : Subscription → Except Unit Unit)
    (st : SNSBackend) (message : String) (arn : Option String)
    (subject : Option String) (messageAttributes : Option MsgAttrs)
    (groupId dedupId : Option String) (now : String)
    (hsubj : ∀ s, subject = some s → strLen s ≤ 100)
    (hlen : 262144 < strLen message) :
    publish adapter st message arn none subject messageAttributes groupId
        dedupId now =
      (.error (.invalidParameterValue "An error occurred (InvalidParameter) when calling the Publish operation: Invalid parameter: Message too long"), st, []) := by
  unfold publish
  rw [subjectTooLong_eq_false subject hsubj]
  dsimp only [strOptTruthy]
  rw [if_pos hlen]
  rfl

/-- Witness for C10: the oversize body against a nonexistent arn reports
the message-too-long error, not a not-found error. -/
theorem C10_witness :
    262144 < strLen bigMsg ∧
    publish okAdapter exSt bigMsg (some "arn:nonexistent") none none none none
        none "T" =
      (.error (.invalidParameterValue "An error occurred (InvalidParameter) when calling the Publish operation: Invalid parameter: Message too long"), exSt, []) := by
  have hlen : 262144 < strLen bigMsg := by
    show 262144 < (List.replicate 262145 'a').length
    rw [List.length_replicate]
    decide
  exact ⟨hlen, C10_theorem okAdapter exSt bigMsg (some "arn:nonexistent") none
    none none none "T" (fun s h => Option.noConfusion h) hlen⟩

/-- C6: for a publish that reaches the topic checks (valid subject and
body sizes, no phone number, topic resolved), a FIFO topic without a
truthy group id fails with the missing-parameter error; a FIFO topic
with a group id, content-based deduplication disabled and no
deduplication id fails with the invalid-parameter error; a non-FIFO
topic with a group or deduplication id fails with the corresponding
invalid-parameter error — and in each case the state (hence the
sent-message log) is returned unchanged and nothing is delivered. -/
theorem C6_theorem (adapter : Subscription → Except Unit Unit)
    (st : SNSBackend) (message : String) (arn : String) (topic : Topic)
    (subject : Option String) (messageAttributes : Option MsgAttrs)
    (groupId dedupId : Option String) (now : String)
    (hsubj : ∀ s, subject = some s → strLen s ≤ 100)
    (hlen : strLen message ≤ 262144)
    (htopic : alFind arn st.topics = some topic) :
    (topic.fifoTopic = "true" → strOptTruthy groupId = false →
      publish adapter st message (some arn) none subject messageAttributes
          groupId dedupId now =
        (.error (.missingParameter "MessageGroupId"), st, [])) ∧
    (topic.fifoTopic = "true" → strOptTruthy groupId = true →
      topic.contentBasedDeduplication = "false" → strOptTruthy dedupId = false →
      publish adapter st message (some arn) none subject messageAttributes
          groupId dedupId now =
        (.error (.invalidParameterValue "The topic should either have ContentBasedDeduplication enabled or MessageDeduplicationId provided explicitly"), st, [])) ∧
    (topic.fifoTopic ≠ "true" →
      (strOptTruthy groupId = true ∨ strOptTruthy dedupId = true) →
      publish adapter st message (some arn) none subject messageAttributes
          groupId dedupId now =
        (.error (.invalidParameterValue
          ("Invalid parameter: " ++
            (if strOptTruthy groupId then "MessageGroupId"
             else "MessageDeduplicationId") ++
            " Reason: The request includes " ++
            (if strOptTruthy groupId then "MessageGroupId"
             else "MessageDeduplicationId") ++
            " parameter that is not valid for this topic type")), st, [])) := by
  have hbind : (some arn).bind (fun a => alFind a st.topics) = some topic := by
    simp [htopic]
  refine ⟨fun hf hg => ?_, fun hf hg hcbd hd => ?_, fun hf hgd => ?_⟩
  · unfold publish
    rw [subjectTooLong_eq_false subject hsubj]
    rw [show strOptTruthy none = false from rfl]
    simp only [Bool.false_eq_true, if_false]
    rw [if_neg (Nat.not_lt.mpr hlen)]
    unfold getTopic
    rw [hbind]
    dsimp only
    simp [hf, hg]
  · unfold publish
    rw [subjectTooLong_eq_false subject hsubj]
    rw [show strOptTruthy none = false from rfl]
    simp only [Bool.false_eq_true, if_false]
    rw [if_neg (Nat.not_lt.mpr hlen)]
    unfold getTopic
    rw [hbind]
    dsimp only
    simp [hf, hg, hcbd, hd]
  · unfold publish
    rw [subjectTooLong_eq_false subject hsubj]
    rw [show strOptTruthy none = false from rfl]
    simp only [Bool.false_eq_true, if_false]
    rw [if_neg (Nat.not_lt.mpr hlen)]
    unfold getTopic
    rw [hbind]
    dsimp only
    have hfb : (topic.fifoTopic == "true") = false := by
      simp [hf]
    rcases hgd with hg | hd
    · simp [hfb, hg]
    · by_cases hg : strOptTruthy groupId = true
      · simp [hfb, hg]
      · simp only [Bool.not_eq_true] at hg
        simp [hfb, hg, hd]

/-- Witness for C6: all three failure cases on concrete FIFO/non-FIFO
states. -/
theorem C6_witness :
    publish okAdapter exStFifo "hello" (some "arn:t") none none none none none
        "T" =
      (.error (.missingParameter "MessageGroupId"), exStFifo, []) ∧
    publish okAdapter exStFifo "hello" (some "arn:t") none none none (some "g")
        none "T" =
      (.error (.invalidParameterValue "The topic should either have ContentBasedDeduplication enabled or MessageDeduplicationId provided explicitly"), exStFifo, []) ∧
    publish okAdapter exSt "hello" (some "arn:t") none none none (some "g")
        none "T" =
      (.error (.invalidParameterValue "Invalid parameter: MessageGroupId Reason: The request includes MessageGroupId parameter that is not valid for this topic type"), exSt, []) := by
  have h1 := C6_theorem okAdapter exStFifo "hello" "arn:t" exTopicFifo none
    none none none "T" (fun s h => Option.noConfusion h) (by decide) rfl
  have h2 := C6_theorem okAdapter exStFifo "hello" "arn:t" exTopicFifo none
    none (some "g") none "T" (fun s h => Option.noConfusion h) (by decide) rfl
  have h3 := C6_theorem okAdapter exSt "hello" "arn:t" exTopic none
    none (some "g") none "T" (fun s h => Option.noConfusion h) (by decide) rfl
  exact ⟨h1.1 rfl rfl, h2.2.1 rfl rfl rfl rfl,
    h3.2.2 (by decide) (Or.inl rfl)⟩

/-- Dict lookup against a cons cell. -/
theorem alFind_cons {α : Type} (k k' : String) (v' : α) (rest : List (String × α)) :
    alFind k ((k', v') :: rest) = if k' == k then some v' else alFind k rest := by
  unfold alFind
  simp only [List.find?]
  cases hk : k' == k
  · simp [hk, alFind]
  · simp [hk]

/-- Inserting a fresh key appends at the end (ordered-dict insertion). -/
theorem alSet_of_not_mem {α : Type} (k : String) (v : α) (l : List (String × α))
    (h : alFind k l = none) : alSet k v l = l ++ [(k, v)] := by
  induction l with
  | nil => rfl
  | cons kv rest ih =>
      obtain ⟨k', v'⟩ := kv
      rw [alFind_cons] at h
      unfold alSet
      by_cases hk : (k' == k) = true
      · rw [if_pos hk] at h
        exact absurd h (by simp)
      · rw [Bool.not_eq_true] at hk
        rw [hk] at h ⊢
        simp only [Bool.false_eq_true, if_false] at h ⊢
        rw [ih h]
        rfl

/-- After inserting a fresh registry entry whose subscription carries the
searched triple, the scan finds it (given no earlier entry matches). -/
theorem findSubscription_after_insert (st : SNSBackend)
    (topicArn endpoint protocol f1 : String) (newSub : Subscription)
    (hfs : findSubscription st topicArn endpoint protocol = none)
    (hfresh : alFind f1 st.subscriptions = none)
    (h1 : newSub.topicArn = topicArn) (h2 : newSub.endpoint = endpoint)
    (h3 : newSub.protocol = protocol) :
    findSubscription { st with subscriptions := alSet f1 newSub st.subscriptions }
      topicArn endpoint protocol = some newSub := by
  unfold findSubscription at hfs ⊢
  dsimp only
  rw [alSet_of_not_mem f1 _ _ hfresh]
  unfold alValues at hfs ⊢
  rw [List.map_append, List.find?_append, hfs]
  simp [h1, h2, h3]

/-- C5: if a subscription with the exact topic+endpoint+protocol triple
exists, `subscribe` returns that very subscription and leaves the whole
backend state (hence the subscription count) unchanged, for any fresh
arn; and two consecutive subscribes with identical arguments return the
same subscription object with no further state change (idempotence). The
hypotheses ask only that an SMS endpoint passes its format validation
and that the registry keys topics by their arn, both invariants of
reachable states. -/
theorem C5_theorem (st : SNSBackend) (topicArn endpoint protocol : String)
    (hsms : protocol = "sms" → smsChecksPass endpoint = true) :
    (∀ sub, findSubscription st topicArn endpoint protocol = some sub →
      ∀ freshArn, subscribe st topicArn endpoint protocol freshArn =
        (.ok sub, st)) ∧
    (∀ st' s1 f1 f2,
      alFind f1 st.subscriptions = none →
      (∀ t, alFind topicArn st.topics = some t → t.arn = topicArn) →
      subscribe st topicArn endpoint protocol f1 = (.ok s1, st') →
      subscribe st' topicArn endpoint protocol f2 = (.ok s1, st')) := by
  have hc1 : (protocol == "sms" &&
      (hasDoubleSep endpoint.data || hasEdgeSep endpoint.data)) = false := by
    by_cases hp : protocol = "sms"
    · have hpass := hsms hp
      simp only [smsChecksPass, Bool.and_eq_true, Bool.not_eq_true'] at hpass
      simp [hpass.1]
    · simp [beq_iff_eq, hp]
  have hc2 : (protocol == "sms" &&
      !isE164 (String.mk (endpoint.data.filter (fun c => !isSepChar c)))) = false := by
    by_cases hp : protocol = "sms"
    · have hpass := hsms hp
      simp only [smsChecksPass, Bool.and_eq_true, Bool.not_eq_true'] at hpass
      simp [hpass.2]
    · simp [beq_iff_eq, hp]
  constructor
  · intro sub hfind freshArn
    unfold subscribe
    rw [if_neg (by simp [hc1]), if_neg (by simp [hc2])]
    rw [hfind]
  · intro st' s1 f1 f2 hfresh htarn hsub
    unfold subscribe at hsub
    rw [if_neg (by simp [hc1]), if_neg (by simp [hc2])] at hsub
    cases hfs : findSubscription st topicArn endpoint protocol with
    | some old =>
        rw [hfs] at hsub
        dsimp only at hsub
        have hfst := congrArg Prod.fst hsub
        have hsnd := congrArg Prod.snd hsub
        dsimp only at hfst hsnd
        injection hfst with hfst
        subst hsnd
        subst hfst
        unfold subscribe
        rw [if_neg (by simp [hc1]), if_neg (by simp [hc2])]
        rw [hfs]
    | none =>
        rw [hfs] at hsub
        dsimp only at hsub
        cases ht : alFind topicArn st.topics with
        | none => rw [ht] at hsub; simp at hsub
        | some topic =>
            rw [ht] at hsub
            dsimp only at hsub
            have hfst := congrArg Prod.fst hsub
            have hsnd := congrArg Prod.snd hsub
            dsimp only at hfst hsnd
            injection hfst with hfst
            subst hsnd
            subst hfst
            unfold subscribe
            rw [if_neg (by simp [hc1]), if_neg (by simp [hc2])]
            have harn : topic.arn = topicArn := htarn topic ht
            rw [findSubscription_after_insert _ _ _ _ _ _ hfs hfresh
              harn rfl rfl]

/-- Witness for C5: a duplicate subscribe returns the stored
subscription unchanged, and subscribing twice to a fresh endpoint is
idempotent. -/
theorem C5_witness :
    subscribe exSt "arn:t" "http://a" "http" "s99" = (.ok exSub1, exSt) ∧
    subscribe (subscribe exSt "arn:t" "http://c" "http" "s3").2 "arn:t"
        "http://c" "http" "s4" =
      (.ok exSub3, (subscribe exSt "arn:t" "http://c" "http" "s3").2) := by
  have h0 := C5_theorem exSt "arn:t" "http://a" "http" (fun hp => by simp at hp)
  have h := C5_theorem exSt "arn:t" "http://c" "http" (fun hp => by simp at hp)
  refine ⟨h0.1 exSub1 rfl "s99", ?_⟩
  exact h.2 (subscribe exSt "arn:t" "http://c" "http" "s3").2 exSub3 "s3" "s4"
    rfl (fun t ht => by injection ht with hh; rw [← hh]; rfl) rfl

/-- C8 (amended): an attribute name outside the whitelist is rejected
with the invalid-attribute-name error before any mutation; a
`FilterPolicy` value that decodes but fails validation aborts with the
validator's error *after* the raw value has already been written into
the subscription's attribute map — only the compiled filter policy is
left exactly as before (it is swapped solely on successful
validation). -/
theorem C8_theorem :
    (∀ (st : SNSBackend) (arn name value : String),
      subscriptionAttributeNames.contains name = false →
      setSubscriptionAttributes st arn name value =
        (.error (.snsInvalidParameter "AttributeName"), st)) ∧
    (∀ (st : SNSBackend) (arn value : String)
      (entries : List (String × PyVal)) (e : Err),
      jsonLoads value = some (.dict entries) →
      validateFilterPolicy entries = .error e →
      (((alValues st.subscriptions).find? (fun s => s.arn == arn)).isSome) →
      setSubscriptionAttributes st arn "FilterPolicy" value =
        (.error e,
         { st with
           subscriptions := updateFirstSub arn
             (fun s =>
               { s with attributes := alSet "FilterPolicy" value s.attributes })
             st.subscriptions }) ∧
      ((setSubscriptionAttributes st arn "FilterPolicy" value).2.subscriptions).map
          (fun kv => kv.2.filterPolicy) =
        st.subscriptions.map (fun kv => kv.2.filterPolicy)) := by
  constructor
  · intro st arn name value hname
    unfold setSubscriptionAttributes
    rw [if_pos (by rw [hname]; rfl)]
  · intro st arn value entries e hjson hval hfind
    have hmain : setSubscriptionAttributes st arn "FilterPolicy" value =
        (.error e,
         { st with
           subscriptions := updateFirstSub arn
             (fun s =>
               { s with attributes := alSet "FilterPolicy" value s.attributes })
             st.subscriptions }) := by
      unfold setSubscriptionAttributes
      rw [if_neg (by simp [subscriptionAttributeNames])]
      obtain ⟨sub, hsub⟩ := Option.isSome_iff_exists.mp hfind
      rw [hsub]
      dsimp only
      rw [if_pos (show ("FilterPolicy" == "FilterPolicy") = true from rfl)]
      rw [hjson]
      dsimp only
      rw [hval]
    refine ⟨hmain, ?_⟩
    rw [hmain]
    exact updateFirstSub_map_filterPolicy arn
      (fun s => { s with attributes := alSet "FilterPolicy" value s.attributes })
      (fun s => rfl) st.subscriptions

/-- C8 is refuted as stated: a rejected `FilterPolicy` call does mutate
the stored attribute map — the subscription starts with no attributes
and ends holding the rejected raw policy, while the compiled policy
stays `none`. -/
theorem C8_counterexample :
    (setSubscriptionAttributes exSt "s1" "FilterPolicy" badPolicyStr).1 =
      .error .filterExistsNotBool ∧
    exSub1.attributes = [] ∧
    ((alValues
        (setSubscriptionAttributes exSt "s1" "FilterPolicy" badPolicyStr).2.subscriptions).find?
          (fun s => s.arn == "s1")).map (fun s => s.attributes) =
      some [("FilterPolicy", badPolicyStr)] ∧
    ((alValues
        (setSubscriptionAttributes exSt "s1" "FilterPolicy" badPolicyStr).2.subscriptions).find?
          (fun s => s.arn == "s1")).map (fun s => s.filterPolicy) =
      some none :=
  ⟨rfl, rfl, rfl, rfl⟩

/-- Witness for C8: the whitelist rejection leaves the state untouched,
and the failing FilterPolicy call produces exactly the attribute-updated
state with all compiled policies unchanged. -/
theorem C8_witness :
    setSubscriptionAttributes exSt "s1" "NotAnAttribute" "v" =
      (.error (.snsInvalidParameter "AttributeName"), exSt) ∧
    setSubscriptionAttributes exSt "s1" "FilterPolicy" badPolicyStr =
      (.error .filterExistsNotBool,
       { exSt with
         subscriptions := updateFirstSub "s1"
           (fun s =>
             { s with attributes := alSet "FilterPolicy" badPolicyStr s.attributes })
           exSt.subscriptions }) ∧
    ((setSubscriptionAttributes exSt "s1" "FilterPolicy" badPolicyStr).2.subscriptions).map
        (fun kv => kv.2.filterPolicy) =
      exSt.subscriptions.map (fun kv => kv.2.filterPolicy) := by
  have h2 := C8_theorem.2 exSt "s1" badPolicyStr
    [("a", .list [.dict [("exists", .num 0)]])] .filterExistsNotBool rfl rfl rfl
  exact ⟨C8_theorem.1 exSt "s1" "NotAnAttribute" "v" rfl, h2.1, h2.2⟩

/-- A failing dispatch in the middle of the delivery loop keeps the
deliveries of the earlier subscriptions and aborts with that error,
skipping the later subscriptions. -/
theorem deliverLoop_append_error (adapter : Subscription → Except Unit Unit)
    (accountId message messageId : String) (subject : Option String)
    (attrs : Option MsgAttrs) (groupId dedupId : Option String) (now : String)
    (pre post : List Subscription) (bad : Subscription) (e : Err)
    (hpre : ∀ s ∈ pre, ∃ ds, subscriptionPublish adapter accountId s message
      messageId subject attrs groupId dedupId now = .ok ds)
    (hbad : subscriptionPublish adapter accountId bad message messageId subject
      attrs groupId dedupId now = .error e) :
    deliverLoop adapter accountId message messageId subject attrs groupId
        dedupId now (pre ++ bad :: post) =
      (pre.flatMap (fun s => okDeliveries (subscriptionPublish adapter accountId
        s message messageId subject attrs groupId dedupId now)), some e) := by
  induction pre with
  | nil =>
      simp only [List.nil_append, List.flatMap_nil]
      unfold deliverLoop
      rw [hbad]
  | cons s rest ih =>
      obtain ⟨ds, hds⟩ := hpre s (List.mem_cons_self s rest)
      have hrest : ∀ x ∈ rest, ∃ d, subscriptionPublish adapter accountId x
          message messageId subject attrs groupId dedupId now = .ok d :=
        fun x hx => hpre x (List.mem_cons_of_mem s hx)
      show deliverLoop adapter accountId message messageId subject attrs groupId
          dedupId now (s :: (rest ++ bad :: post)) = _
      unfold deliverLoop
      rw [hds, ih hrest]
      simp [List.flatMap_cons, okDeliveries, hds]

/-- C9 (amended): when one subscription's transport adapter call raises,
`Topic.publish` does *not* shield the publish call: the exception
propagates (no message id is returned), the message is never appended to
the topic's sent-message log (only the uuid counter has advanced), the
subscriptions before the failing one in iteration order have already
been delivered to, and the ones after it are skipped. -/
theorem C9_theorem (adapter : Subscription → Except Unit Unit)
    (st : SNSBackend) (t : Topic) (message : String) (subject : Option String)
    (messageAttributes : Option MsgAttrs) (groupId dedupId : Option String)
    (now : String) (pre post : List Subscription) (bad : Subscription) (e : Err)
    (hsubs : listSubscriptionsByTopic st t.arn = .ok (pre ++ bad :: post))
    (hpre : ∀ s ∈ pre, ∃ ds, subscriptionPublish adapter st.accountId s message
      ("msg-" ++ toString st.uuidCounter) subject messageAttributes groupId
      dedupId now = .ok ds)
    (hbad : subscriptionPublish adapter st.accountId bad message
      ("msg-" ++ toString st.uuidCounter) subject messageAttributes groupId
      dedupId now = .error e) :
    topicPublish adapter st t message subject messageAttributes groupId dedupId
        now =
      (.error e, { st with uuidCounter := st.uuidCounter + 1 },
       pre.flatMap (fun s => okDeliveries (subscriptionPublish adapter
         st.accountId s message ("msg-" ++ toString st.uuidCounter) subject
         messageAttributes groupId dedupId now))) := by
  unfold topicPublish freshUuid
  dsimp only
  have hsubs' : listSubscriptionsByTopic
      { st with uuidCounter := st.uuidCounter + 1 } t.arn =
      .ok (pre ++ bad :: post) := hsubs
  rw [hsubs']
  dsimp only
  rw [deliverLoop_append_error adapter st.accountId message
    ("msg-" ++ toString st.uuidCounter) subject messageAttributes groupId
    dedupId now pre post bad e hpre hbad]

/-- C9 is refuted as stated: with the first subscription's adapter
failing, publish returns an error instead of a message id, the
sent-message log gains no entry, and the second (healthy) subscription
receives nothing. -/
theorem C9_counterexample :
    (publish failS1Adapter exSt "hello" (some "arn:t") none none none none none
        "T").1 = .error .deliveryError ∧
    ((alFind "arn:t" (publish failS1Adapter exSt "hello" (some "arn:t") none
        none none none none "T").2.1.topics).map
      (fun t => t.sentNotifications)) = some [] ∧
    (publish failS1Adapter exSt "hello" (some "arn:t") none none none none none
        "T").2.2 = [] :=
  ⟨rfl, rfl, rfl⟩

/-- Witness for C9: one delivered subscription before the failing one,
none after. -/
theorem C9_witness :
    topicPublish failS2Adapter exSt exTopic "hello" none none none none "T" =
      (.error .deliveryError, { exSt with uuidCounter := 1 },
       [.httpPost "http://a" (getPostData "arn:t" "123" "hello" "msg-0" none
         none "T")]) := by
  have h := C9_theorem failS2Adapter exSt exTopic "hello" none none none none
    "T" [exSub1] [] exSub2 .deliveryError rfl
    (fun s hs => by
      simp only [List.mem_singleton] at hs
      subst hs
      exact ⟨[.httpPost "http://a" (getPostData "arn:t" "123" "hello" "msg-0"
        none none "T")], rfl⟩)
    rfl
  exact h

theorem alFind_alSet_self {α : Type} (k : String) (v : α) (l : List (String × α)) :
    alFind k (alSet k v l) = some v := by
  induction l with
  | nil => simp [alSet, alFind_cons]
  | cons kv rest ih =>
      obtain ⟨k', v'⟩ := kv
      unfold alSet
      by_cases hk : (k' == k) = true
      · rw [if_pos hk]
        simp [alFind_cons]
      · rw [Bool.not_eq_true] at hk
        rw [hk]
        simp only [Bool.false_eq_true, if_false]
        rw [alFind_cons, hk]
        simp [ih]

theorem topicPublish_no_subs (adapter : Subscription → Except Unit Unit)
    (topicArn fifo cbd : String) (st : SNSBackend) (t : Topic) (message : String)
    (subject : Option String) (mas : Option MsgAttrs) (groupId : Option String)
    (now : String)
    (ht : alFind topicArn st.topics = some t) (harn : t.arn = topicArn)
    (hft : t.fifoTopic = fifo) (hcb : t.contentBasedDeduplication = cbd)
    (hsubs : (alValues st.subscriptions).filter (fun s => s.topicArn == topicArn) = []) :
    ∃ st', topicPublish adapter st t message subject mas groupId none now =
      (.ok ("msg-" ++ toString st.uuidCounter), st', []) ∧
      BatchInv topicArn fifo cbd st' ∧ st'.uuidCounter = st.uuidCounter + 1 := by
  have hlist : listSubscriptionsByTopic
      { st with uuidCounter := st.uuidCounter + 1 } t.arn = .ok [] := by
    unfold listSubscriptionsByTopic
    dsimp only
    rw [harn, ht]
    dsimp only
    rw [harn, hsubs]
    rfl
  unfold topicPublish freshUuid
  dsimp only
  rw [hlist]
  dsimp only [deliverLoop]
  refine ⟨_, rfl, ⟨?_, hsubs⟩, rfl⟩
  refine ⟨{ t with sentNotifications := t.sentNotifications ++
      [{ messageId := "msg-" ++ toString st.uuidCounter, message := message,
         subject := subject, messageAttributes := mas, groupId := groupId }] },
    ?_, harn, hft, hcb⟩
  dsimp only
  rw [harn]
  exact alFind_alSet_self topicArn _ st.topics

theorem publishEntry_fate (adapter : Subscription → Except Unit Unit)
    (topicArn fifo cbd : String) (st : SNSBackend) (e : BatchEntry) (now : String)
    (hinv : BatchInv topicArn fifo cbd st) :
    (∀ m, entryFate fifo cbd e = .failsInvalidParameter m →
      publish adapter st e.message (some topicArn) none e.subject
        (some (e.messageAttributes.getD [])) e.messageGroupId none now =
        (.error (.invalidParameterValue m), st, [])) ∧
    (entryFate fifo cbd e = .dropped →
      ∃ err, publish adapter st e.message (some topicArn) none e.subject
        (some (e.messageAttributes.getD [])) e.messageGroupId none now =
        (.error err, st, []) ∧ err.isInvalidParameterValue = false) ∧
    (entryFate fifo cbd e = .succeeds →
      ∃ st', publish adapter st e.message (some topicArn) none e.subject
        (some (e.messageAttributes.getD [])) e.messageGroupId none now =
        (.ok ("msg-" ++ toString st.uuidCounter), st', []) ∧
        BatchInv topicArn fifo cbd st' ∧ st'.uuidCounter = st.uuidCounter + 1) := by
  obtain ⟨⟨t, ht, harn, hft, hcb⟩, hsubs⟩ := hinv
  by_cases hsubj : subjectTooLong e.subject = true
  · have hfate : entryFate fifo cbd e = .dropped := by
      unfold entryFate; rw [if_pos hsubj]
    have hpub : publish adapter st e.message (some topicArn) none e.subject
        (some (e.messageAttributes.getD [])) e.messageGroupId none now =
        (.error (.valueError "Subject must be less than 100 characters"), st, []) := by
      unfold publish; rw [if_pos hsubj]
    refine ⟨?_, ?_, ?_⟩
    · intro m hm; rw [hfate] at hm; exact absurd hm (by simp)
    · intro _; exact ⟨_, hpub, rfl⟩
    · intro hm; rw [hfate] at hm; exact absurd hm (by simp)
  · rw [Bool.not_eq_true] at hsubj
    by_cases hlen : strLen e.message > 262144
    · have hfate : entryFate fifo cbd e =
          .failsInvalidParameter "An error occurred (InvalidParameter) when calling the Publish operation: Invalid parameter: Message too long" := by
        unfold entryFate
        rw [if_neg (by simp [hsubj]), if_pos hlen]
      have hpub : publish adapter st e.message (some topicArn) none e.subject
          (some (e.messageAttributes.getD [])) e.messageGroupId none now =
          (.error (.invalidParameterValue "An error occurred (InvalidParameter) when calling the Publish operation: Invalid parameter: Message too long"), st, []) := by
        unfold publish
        rw [if_neg (by simp [hsubj]),
          if_neg (by rw [show strOptTruthy none = false from rfl]; simp),
          if_pos hlen]
      refine ⟨?_, ?_, ?_⟩
      · intro m hm
        rw [hfate] at hm
        injection hm with hm'
        rw [← hm']
        exact hpub
      · intro hm; rw [hfate] at hm; exact absurd hm (by simp)
      · intro hm; rw [hfate] at hm; exact absurd hm (by simp)
    · -- topic path: tryBody computed via ht
      have hget : getTopic st (some topicArn) = .ok t := by
        unfold getTopic
        simp [ht]
      by_cases hff : (fifo == "true") = true
      · by_cases hgrp : strOptTruthy e.messageGroupId = true
        · by_cases hcbf : (cbd == "false") = true
          · have hfate : entryFate fifo cbd e =
                .failsInvalidParameter "The topic should either have ContentBasedDeduplication enabled or MessageDeduplicationId provided explicitly" := by
              unfold entryFate
              rw [if_neg (by simp [hsubj]), if_neg hlen, if_pos hff,
                if_neg (by simp [hgrp]), if_pos hcbf]
            have hpub : publish adapter st e.message (some topicArn) none e.subject
                (some (e.messageAttributes.getD [])) e.messageGroupId none now =
                (.error (.invalidParameterValue "The topic should either have ContentBasedDeduplication enabled or MessageDeduplicationId provided explicitly"), st, []) := by
              unfold publish
              rw [if_neg (by simp [hsubj]),
                if_neg (by rw [show strOptTruthy none = false from rfl]; simp),
                if_neg hlen, hget]
              dsimp only
              rw [hft, hcb, if_neg (by simp [hgrp]),
                if_pos (by rw [show strOptTruthy none = false from rfl]; simp [hff, hcbf])]
            refine ⟨?_, ?_, ?_⟩
            · intro m hm
              rw [hfate] at hm
              injection hm with hm'
              rw [← hm']
              exact hpub
            · intro hm; rw [hfate] at hm; exact absurd hm (by simp)
            · intro hm; rw [hfate] at hm; exact absurd hm (by simp)
          · rw [Bool.not_eq_true] at hcbf
            have hfate : entryFate fifo cbd e = .succeeds := by
              unfold entryFate
              rw [if_neg (by simp [hsubj]), if_neg hlen, if_pos hff,
                if_neg (by simp [hgrp]), if_neg (by simp [hcbf])]
            obtain ⟨st', htp, hinv', hcnt⟩ := topicPublish_no_subs adapter topicArn
              fifo cbd st t e.message e.subject (some (e.messageAttributes.getD []))
              e.messageGroupId now ht harn hft hcb hsubs
            have hpub : publish adapter st e.message (some topicArn) none e.subject
                (some (e.messageAttributes.getD [])) e.messageGroupId none now =
                (.ok ("msg-" ++ toString st.uuidCounter), st', []) := by
              unfold publish
              rw [if_neg (by simp [hsubj]),
                if_neg (by rw [show strOptTruthy none = false from rfl]; simp),
                if_neg hlen, hget]
              dsimp only
              rw [hft, hcb, if_neg (by simp [hgrp]), if_neg (by simp [hcbf]),
                if_neg (by simp [hff]), htp]
            refine ⟨?_, ?_, ?_⟩
            · intro m hm; rw [hfate] at hm; exact absurd hm (by simp)
            · intro hm; rw [hfate] at hm; exact absurd hm (by simp)
            · intro _; exact ⟨st', hpub, hinv', hcnt⟩
        · rw [Bool.not_eq_true] at hgrp
          have hfate : entryFate fifo cbd e = .dropped := by
            unfold entryFate
            rw [if_neg (by simp [hsubj]), if_neg hlen, if_pos hff,
              if_pos (by simp [hgrp])]
          have hpub : publish adapter st e.message (some topicArn) none e.subject
              (some (e.messageAttributes.getD [])) e.messageGroupId none now =
              (.error (.missingParameter "MessageGroupId"), st, []) := by
            unfold publish
            rw [if_neg (by simp [hsubj]),
              if_neg (by rw [show strOptTruthy none = false from rfl]; simp),
              if_neg hlen, hget]
            dsimp only
            rw [hft, if_pos (by simp [hff, hgrp])]
          refine ⟨?_, ?_, ?_⟩
          · intro m hm; rw [hfate] at hm; exact absurd hm (by simp)
          · intro _; exact ⟨_, hpub, rfl⟩
          · intro hm; rw [hfate] at hm; exact absurd hm (by simp)
      · rw [Bool.not_eq_true] at hff
        by_cases hgrp : strOptTruthy e.messageGroupId = true
        · have hfate : entryFate fifo cbd e =
              .failsInvalidParameter "Invalid parameter: MessageGroupId Reason: The request includes MessageGroupId parameter that is not valid for this topic type" := by
            unfold entryFate
            rw [if_neg (by simp [hsubj]), if_neg hlen, if_neg (by simp [hff]),
              if_pos hgrp]
          have hpub : publish adapter st e.message (some topicArn) none e.subject
              (some (e.messageAttributes.getD [])) e.messageGroupId none now =
              (.error (.invalidParameterValue "Invalid parameter: MessageGroupId Reason: The request includes MessageGroupId parameter that is not valid for this topic type"), st, []) := by
            unfold publish
            rw [if_neg (by simp [hsubj]),
              if_neg (by rw [show strOptTruthy none = false from rfl]; simp),
              if_neg hlen, hget]
            dsimp only
            rw [hft, if_neg (by simp [hff]), if_neg (by simp [hff]),
              if_pos (by simp [hff, hgrp]), if_pos hgrp]
            rfl
          refine ⟨?_, ?_, ?_⟩
          · intro m hm
            rw [hfate] at hm
            injection hm with hm'
            rw [← hm']
            exact hpub
          · intro hm; rw [hfate] at hm; exact absurd hm (by simp)
          · intro hm; rw [hfate] at hm; exact absurd hm (by simp)
        · rw [Bool.not_eq_true] at hgrp
          have hfate : entryFate fifo cbd e = .succeeds := by
            unfold entryFate
            rw [if_neg (by simp [hsubj]), if_neg hlen, if_neg (by simp [hff]),
              if_neg (by simp [hgrp])]
          obtain ⟨st', htp, hinv', hcnt⟩ := topicPublish_no_subs adapter topicArn
            fifo cbd st t e.message e.subject (some (e.messageAttributes.getD []))
            e.messageGroupId now ht harn hft hcb hsubs
          have hpub : publish adapter st e.message (some topicArn) none e.subject
              (some (e.messageAttributes.getD [])) e.messageGroupId none now =
              (.ok ("msg-" ++ toString st.uuidCounter), st', []) := by
            unfold publish
            rw [if_neg (by simp [hsubj]),
              if_neg (by rw [show strOptTruthy none = false from rfl]; simp),
              if_neg hlen, hget]
            dsimp only
            rw [hft, if_neg (by simp [hff]), if_neg (by simp [hff]),
              if_neg (by rw [show strOptTruthy none = false from rfl]; simp [hgrp]),
              htp]
          refine ⟨?_, ?_, ?_⟩
          · intro m hm; rw [hfate] at hm; exact absurd hm (by simp)
          · intro hm; rw [hfate] at hm; exact absurd hm (by simp)
          · intro _; exact ⟨st', hpub, hinv', hcnt⟩

theorem batchLoop_fates (adapter : Subscription → Except Unit Unit)
    (topicArn fifo cbd now : String) :
    ∀ (entries : List BatchEntry) (st : SNSBackend), BatchInv topicArn fifo cbd st →
      ∃ st', batchLoop adapter topicArn now st entries =
        (successOf fifo cbd st.uuidCounter entries, failedOf fifo cbd entries,
         st', []) := by
  intro entries
  induction entries with
  | nil =>
      intro st hinv
      exact ⟨st, rfl⟩
  | cons e rest ih =>
      intro st hinv
      obtain ⟨hf, hd, hs⟩ := publishEntry_fate adapter topicArn fifo cbd st e now hinv
      cases hfe : entryFate fifo cbd e with
      | succeeds =>
          obtain ⟨st1, hpub, hinv1, hcnt⟩ := hs hfe
          obtain ⟨st', hb⟩ := ih st1 hinv1
          refine ⟨st', ?_⟩
          unfold batchLoop
          rw [hpub]
          dsimp only
          rw [hb, hcnt]
          simp [successOf, failedOf, hfe, EntryFate.isFailIPV]
      | failsInvalidParameter m =>
          have hpub := hf m hfe
          obtain ⟨st', hb⟩ := ih st hinv
          refine ⟨st', ?_⟩
          unfold batchLoop
          rw [hpub]
          dsimp only
          rw [hb]
          simp [successOf, failedOf, hfe, EntryFate.isFailIPV, fateMsg,
            Err.isInvalidParameterValue, Err.message]
      | dropped =>
          obtain ⟨err, hpub, hnip⟩ := hd hfe
          obtain ⟨st', hb⟩ := ih st hinv
          refine ⟨st', ?_⟩
          unfold batchLoop
          rw [hpub]
          dsimp only
          rw [hb]
          simp [successOf, failedOf, hfe, EntryFate.isFailIPV, hnip]

theorem successOf_cons_succeeds (fifo cbd : String) (c0 : Nat) (e : BatchEntry)
    (rest : List BatchEntry) (h : entryFate fifo cbd e = .succeeds) :
    successOf fifo cbd c0 (e :: rest) =
      { messageId := "msg-" ++ toString c0, entryId := e.id } ::
        successOf fifo cbd (c0 + 1) rest := by
  conv_lhs => unfold successOf
  rw [h]

theorem successOf_cons_fails (fifo cbd m : String) (c0 : Nat) (e : BatchEntry)
    (rest : List BatchEntry) (h : entryFate fifo cbd e = .failsInvalidParameter m) :
    successOf fifo cbd c0 (e :: rest) = successOf fifo cbd c0 rest := by
  conv_lhs => unfold successOf
  rw [h]

theorem failedOf_cons_fails (fifo cbd m : String) (e : BatchEntry)
    (rest : List BatchEntry) (h : entryFate fifo cbd e = .failsInvalidParameter m) :
    failedOf fifo cbd (e :: rest) =
      { id := e.id, code := "InvalidParameter", message := m,
        senderFault := true } :: failedOf fifo cbd rest := by
  conv_lhs => unfold failedOf
  rw [List.filter_cons, h]
  simp [EntryFate.isFailIPV, fateMsg, h, failedOf]

theorem failedOf_cons_skipSucc (fifo cbd : String) (e : BatchEntry)
    (rest : List BatchEntry) (h : entryFate fifo cbd e = .succeeds) :
    failedOf fifo cbd (e :: rest) = failedOf fifo cbd rest := by
  conv_lhs => unfold failedOf
  rw [List.filter_cons, h]
  simp [EntryFate.isFailIPV, failedOf]

/-- C7 (amended): for a batch publish against an existing topic whose
arn equals its registry key and which has no subscriptions — more than
10 entries rejects the whole batch; non-distinct entry ids reject the
whole batch; on a FIFO topic a missing group id on any entry rejects
the whole batch; otherwise the entries are processed independently:
the successful list holds exactly the entries whose per-entry fate is
success (with sequentially drawn message ids) and the failed list holds
exactly the entries whose publish raises an `InvalidParameterValue`
(code `InvalidParameter`, the exception's message, sender fault) —
but an entry whose publish raises any *other* exception (an oversize
subject's `ValueError`, a blank group id's `MissingParameter`) is
swallowed and appears in *neither* list, so the two lists do not
always partition the batch as the claim states. -/
theorem C7_theorem (adapter : Subscription → Except Unit Unit) (st : SNSBackend)
    (topicArn : String) (t : Topic) (entries : List BatchEntry) (now : String)
    (ht : alFind topicArn st.topics = some t) (harn : t.arn = topicArn)
    (hsubs : (alValues st.subscriptions).filter (fun s => s.topicArn == topicArn) = []) :
    (entries.length > 10 →
      publishBatch adapter st topicArn entries now =
        (.error .tooManyEntriesInBatch, st, [])) ∧
    (entries.length ≤ 10 → ¬(entries.map (fun e => e.id)).Nodup →
      publishBatch adapter st topicArn entries now =
        (.error .batchEntryIdsNotDistinct, st, [])) ∧
    (entries.length ≤ 10 → (entries.map (fun e => e.id)).Nodup →
      (t.fifoTopic == "true" &&
        !(entries.all (fun e => e.messageGroupId.isSome))) = true →
      publishBatch adapter st topicArn entries now =
        (.error (.snsInvalidParameter "Invalid parameter: The MessageGroupId parameter is required for FIFO topics"), st, [])) ∧
    (entries.length ≤ 10 → (entries.map (fun e => e.id)).Nodup →
      (t.fifoTopic == "true" &&
        !(entries.all (fun e => e.messageGroupId.isSome))) = false →
      ∃ st', publishBatch adapter st topicArn entries now =
        (.ok (successOf t.fifoTopic t.contentBasedDeduplication st.uuidCounter entries,
              failedOf t.fifoTopic t.contentBasedDeduplication entries), st', [])) := by
  refine ⟨?_, ?_, ?_, ?_⟩
  · intro hgt
    unfold publishBatch
    rw [ht]
    dsimp only
    rw [if_pos hgt]
  · intro hle hnd
    unfold publishBatch
    rw [ht]
    dsimp only
    rw [if_neg (by omega), if_pos (by simp [hnd])]
  · intro hle hnd hc
    unfold publishBatch
    rw [ht]
    dsimp only
    rw [if_neg (by omega), if_neg (by simp [hnd]), if_pos hc]
  · intro hle hnd hc
    obtain ⟨st', hb⟩ := batchLoop_fates adapter topicArn t.fifoTopic
      t.contentBasedDeduplication now entries st ⟨⟨t, ht, harn, rfl, rfl⟩, hsubs⟩
    refine ⟨st', ?_⟩
    unfold publishBatch
    rw [ht]
    dsimp only
    rw [if_neg (by omega), if_neg (by simp [hnd]), if_neg (by simp [hc]), hb]

/-- Counterexample to C7 as stated: a single-entry batch whose entry
carries a 101-character subject returns `Ok ([], [])` — the entry was
submitted, its publish failed (a `ValueError`, shown in the second
conjunct), yet it appears in neither the successful nor the failed
list, refuting "every submitted entry appears in exactly one of the
two lists". -/
theorem C7_counterexample :
    (publishBatch okAdapter exSt "arn:t" [entBadSubj] "T").1 = .ok ([], []) ∧
    (publish okAdapter exSt entBadSubj.message (some "arn:t") none entBadSubj.subject
      (some (entBadSubj.messageAttributes.getD [])) entBadSubj.messageGroupId none
      "T").1 = .error (.valueError "Subject must be less than 100 characters") :=
  ⟨rfl, rfl⟩

/-- Witness for C7: the claim's own concrete example — a 3-entry batch
whose second entry exceeds 262144 characters returns
successful = [entry1, entry3] (ids `e1`, `e3`) and
failed = [entry2] with code `InvalidParameter`. -/
theorem C7_witness :
    ((publishBatch okAdapter c7St "arn:t" [b1, b2, b3] "T").1,
     (publishBatch okAdapter c7St "arn:t" [b1, b2, b3] "T").2.2) =
      (.ok ([{ messageId := "msg-0", entryId := "e1" },
             { messageId := "msg-1", entryId := "e3" }],
            [{ id := "e2", code := "InvalidParameter",
               message := "An error occurred (InvalidParameter) when calling the Publish operation: Invalid parameter: Message too long",
               senderFault := true }]),
       []) := by
  have hb2 : strLen b2.message > 262144 := by
    show (List.replicate 262145 'a').length > 262144
    rw [List.length_replicate]
    decide
  have hfate2 : entryFate "false" "false" b2 =
      .failsInvalidParameter "An error occurred (InvalidParameter) when calling the Publish operation: Invalid parameter: Message too long" := by
    unfold entryFate
    rw [if_neg (by rw [show subjectTooLong b2.subject = false from rfl]; simp),
      if_pos hb2]
  have h1 : entryFate "false" "false" b1 = .succeeds := rfl
  have h3 : entryFate "false" "false" b3 = .succeeds := rfl
  have hsucc : successOf "false" "false" 0 [b1, b2, b3] =
      [{ messageId := "msg-0", entryId := "e1" },
       { messageId := "msg-1", entryId := "e3" }] := by
    rw [successOf_cons_succeeds _ _ _ _ _ h1, successOf_cons_fails _ _ _ _ _ _ hfate2,
      successOf_cons_succeeds _ _ _ _ _ h3]
    rfl
  have hfail : failedOf "false" "false" [b1, b2, b3] =
      [{ id := "e2", code := "InvalidParameter",
         message := "An error occurred (InvalidParameter) when calling the Publish operation: Invalid parameter: Message too long",
         senderFault := true }] := by
    rw [failedOf_cons_skipSucc _ _ _ _ h1, failedOf_cons_fails _ _ _ _ _ hfate2,
      failedOf_cons_skipSucc _ _ _ _ h3]
    rfl
  obtain ⟨-, -, -, h4⟩ := C7_theorem okAdapter c7St "arn:t" exTopic [b1, b2, b3] "T"
    rfl rfl rfl
  obtain ⟨st', heq⟩ := h4 (by decide) (by decide) rfl
  rw [show exTopic.fifoTopic = "false" from rfl,
    show exTopic.contentBasedDeduplication = "false" from rfl,
    show c7St.uuidCounter = 0 from rfl, hsucc, hfail] at heq
  rw [heq]

end SnsModel
